import Mathlib

set_option maxRecDepth 40000

/-!
Shallow embedding of the Shiftropolis arena-generation core
(src/app/core/mod.rs, src/app/data/mod.rs, src/app/generation/mod.rs,
src/app/monitoring/mod.rs).

Modelling conventions, used consistently below:

* Rust f32/f64 values are modelled by the unnormalised exact rational type
  FloatQ (integer numerator and positive denominator, comparisons by cross
  multiplication).  Every float constant appearing in the source is a short
  decimal, exactly representable here; all comparisons performed by the code
  are far from any rounding boundary of f32/f64, so the rational model agrees
  with the floating-point computation on everything the theorems below touch.
  f64::INFINITY (only produced by calculate_average_distance for fewer than
  two positions, and only ever compared against 2.0) is modelled by a large
  constant, and f64::sqrt (only used inside the never-relied-upon spatial
  clustering average) by a rational approximation.
* StdRng is modelled by an infinite stream of rationals in [0,1) together
  with a cursor: rng.gen::<f32>() / rng.gen::<f64>() take the next stream
  element, and rng.gen_range(0..n) scales the next element by n and takes the
  floor.  Each generator call consumes exactly one stream element, mirroring
  the fact that StdRng is a deterministic function of its (seeded) state.
  The raw-pointer alias of the StdRng inside WFCGenerator is modelled by
  threading the very same Rng value through the filler.
* HashMap / HashSet are modelled by association lists / lists, with
  insert-replaces-existing-key semantics and membership lookups.  Where the
  code iterates over a HashMap whose iteration order is observable
  (RulesDatabase::get_all_rules, EnvVarsDatabase::get_all_variables), the
  iteration order is passed in as an explicit list parameter, because Rust's
  RandomState makes that order an input that is not determined by the seed
  or by the catalog contents.  Where the iteration order is not observable
  (ModulesDatabase::get_all_modules feeds a keyed weight map; the per-type
  count map of check_module_distribution is only read pointwise) the
  canonical source order is used.
* Instant/Duration wall-clock readings are modelled by an explicit
  elapsedMs parameter handed to the pipeline.
* serde_json parameter payloads and the never-populated connections field of
  ArenaCell, as well as the purely presentational name/description fields of
  the catalog records, are omitted: no embedded code path reads them.
  Anomaly messages are kept as strings but numeric interpolations are
  simplified, since no code path branches on a message.
-/

/-- Exact unnormalised rational, the model of Rust f32/f64 values.  All
values built by the embedded pipeline keep a positive denominator. -/
structure FloatQ where
  num : Int
  den : Int
deriving DecidableEq, Repr

/-- Embed an integer count (Rust as f32 / as f64 casts). -/
def FloatQ.ofInt (n : Int) : FloatQ := ⟨n, 1⟩

/-- Embed a natural-number count. -/
def FloatQ.ofNat (n : Nat) : FloatQ := ⟨(n : Int), 1⟩

/-- Addition of float values. -/
def FloatQ.add (a b : FloatQ) : FloatQ := ⟨a.num * b.den + b.num * a.den, a.den * b.den⟩

/-- Subtraction of float values. -/
def FloatQ.sub (a b : FloatQ) : FloatQ := ⟨a.num * b.den - b.num * a.den, a.den * b.den⟩

/-- Multiplication of float values. -/
def FloatQ.mul (a b : FloatQ) : FloatQ := ⟨a.num * b.num, a.den * b.den⟩

/-- Division of float values; in the pipeline the divisor is always a strictly
positive cell count, keeping denominators positive. -/
def FloatQ.div (a b : FloatQ) : FloatQ := ⟨a.num * b.den, a.den * b.num⟩

/-- Strict comparison a < b by cross multiplication (valid for the
positive-denominator values the pipeline builds). -/
def FloatQ.blt (a b : FloatQ) : Bool := a.num * b.den < b.num * a.den

/-- Comparison a <= 0, used by the roulette-selection loops. -/
def FloatQ.leZero (a : FloatQ) : Bool := a.num ≤ 0

/-- Rust f64::clamp(lo, hi). -/
def FloatQ.clamp (a lo hi : FloatQ) : FloatQ :=
  if a.blt lo then lo else if hi.blt a then hi else a

/-- Floor to a natural number, used to model gen_range scaling; arguments are
always nonnegative there. -/
def FloatQ.floorToNat (a : FloatQ) : Nat := (a.num / a.den).toNat

/-- Sum of a list of float values (weight totals). -/
def floatSum (l : List FloatQ) : FloatQ := l.foldl FloatQ.add ⟨0, 1⟩

/-- Model of f64::sqrt by a rational approximation at 10^-6 precision; only
reachable through calculate_average_distance, whose result no proved theorem
depends on. -/
def FloatQ.sqrtApprox (a : FloatQ) : FloatQ :=
  ⟨(Nat.sqrt ((a.num.toNat * a.den.toNat) * 1000000000000) : Int), a.den * 1000000⟩

/-- Model of f64::INFINITY; only ever compared against 2.0. -/
def floatInfinity : FloatQ := ⟨1000000000, 1⟩

/-- Model of StdRng: a deterministic stream of draws in [0,1) plus a cursor.
Seeding with a u64 corresponds to choosing the stream. -/
structure Rng where
  stream : Nat → FloatQ
  idx : Nat

/-- rng.gen::<f32>() / rng.gen::<f64>(): take the next draw. -/
def Rng.next (r : Rng) : FloatQ × Rng := (r.stream r.idx, ⟨r.stream, r.idx + 1⟩)

/-- rng.gen_range(0..n): scale the next draw by n and floor. -/
def Rng.genRange (r : Rng) (n : Nat) : Nat × Rng :=
  let (q, r2) := r.next
  ((FloatQ.mul q (FloatQ.ofNat n)).floorToNat % n, r2)

/-- RuleId enum of core/mod.rs. -/
inductive RuleId where
  | NoJump
  | LowJump
  | HighJump
  | SpeedUp
  | NoAttack
  | LavaFloor
  | ProjectileRain
  | OrbCollection
  | MoonGravity
deriving DecidableEq, Repr

/-- EnvVarId enum of core/mod.rs. -/
inductive EnvVarId where
  | Gravity
  | GameSpeed
deriving DecidableEq, Repr

/-- ModuleId enum of core/mod.rs. -/
inductive ModuleId where
  | Player
  | OrbEnergy
  | FloorStd
  | FloorLarge
  | WallLow
  | WallHigh
  | PanelGlass
  | RampLow
  | RampSteep
  | MoveTeleporterIn
  | MoveTeleporterOut
  | MoveClimbSurface
  | HazardLavaPit
  | HazardLaserEmitterStatic
  | HazardLaserTurretRotate
  | InteractButtonFloor
  | InteractButtonWall
  | InteractLever
  | InteractEnemySpawner
  | InteractBarrierEnergy
  | DecorArchMetallic
deriving DecidableEq, Repr

/-- Rule record of core/mod.rs (name, description and the unused parameters
payload omitted). -/
structure Rule where
  id : RuleId
  tags : List String
  incompatibleWith : List RuleId
deriving DecidableEq, Repr

/-- EnvVariable record of core/mod.rs (name and description omitted). -/
structure EnvVariable where
  id : EnvVarId
  defaultValue : FloatQ
  range : FloatQ × FloatQ
deriving DecidableEq, Repr

/-- ModuleDefinition record of core/mod.rs restricted to the fields the
generator reads (id and wfc_weight; tags are passed to
add_module_constraint but ignored there). -/
structure ModuleDefinition where
  id : ModuleId
  wfcWeight : Option Nat
deriving DecidableEq, Repr

/-- ArenaCell record of core/mod.rs (module_params, always None along the
embedded paths, and connections, always empty, omitted). -/
structure ArenaCell where
  x : Int
  y : Int
  moduleId : ModuleId
deriving DecidableEq, Repr

/-- GenerationMetadata of core/mod.rs.  The seed field receives one raw rng
draw (rng.gen::<u64>() in Arena::new's caller); the u64 is modelled by the
draw itself. -/
structure GenerationMetadata where
  seed : FloatQ
  generationTimeMs : FloatQ
  algorithmVersion : String
  constraintsApplied : List String
deriving DecidableEq, Repr

/-- Arena (the Grid) of core/mod.rs; the random Uuid id is omitted (no claim
mentions it), env_variables is the association list of resolved values. -/
structure Arena where
  width : Nat
  height : Nat
  modules : List ArenaCell
  activeRules : List Rule
  envVariables : List (EnvVarId × FloatQ)
  generationMetadata : GenerationMetadata
deriving DecidableEq, Repr

/-- Arena::new. -/
def Arena.new (width height : Nat) (seed : FloatQ) : Arena :=
  { width := width
    height := height
    modules := []
    activeRules := []
    envVariables := []
    generationMetadata :=
      { seed := seed
        generationTimeMs := ⟨0, 1⟩
        algorithmVersion := "1.0.0"
        constraintsApplied := [] } }

/-- Arena::get_cell: linear scan returning the first record at (x, y). -/
def Arena.getCell (a : Arena) (x y : Int) : Option ArenaCell :=
  a.modules.find? (fun cell => cell.x == x && cell.y == y)

/-- Arena::count_modules_by_type. -/
def Arena.countModulesByType (a : Arena) (moduleType : ModuleId) : Nat :=
  (a.modules.filter (fun cell => cell.moduleId == moduleType)).length

/-- Arena::add_module: unconditionally push a fresh record. -/
def Arena.addModule (a : Arena) (x y : Int) (moduleId : ModuleId) : Arena :=
  { a with modules := a.modules ++ [⟨x, y, moduleId⟩] }

/-- Walkable module predicate used by the generator and monitor
(FloorStd | FloorLarge | RampSteep). -/
def isWalkableModule (m : ModuleId) : Bool :=
  match m with
  | .FloorStd | .FloorLarge | .RampSteep => true
  | _ => false

/-- Count of walkable-type module records, as computed (identically) by
check_gameplay_balance and balance_arena. -/
def Arena.walkableModuleCount (a : Arena) : Nat :=
  (a.modules.filter (fun cell => isWalkableModule cell.moduleId)).length

/-- Hazard module predicate of check_gameplay_balance
(HazardLavaPit | HazardLaserEmitterStatic | HazardLaserTurretRotate). -/
def isHazardModule (m : ModuleId) : Bool :=
  match m with
  | .HazardLavaPit | .HazardLaserEmitterStatic | .HazardLaserTurretRotate => true
  | _ => false

/-- Arena::validate_structural_integrity: the three Critical-on-report
structural issues. -/
def Arena.validateStructuralIntegrity (a : Arena) : List String :=
  let issues : List String := []
  let issues :=
    if ¬ a.modules.any (fun cell => cell.moduleId == .Player) then
      issues ++ ["No player spawn point found"]
    else issues
  let walkableCount := a.walkableModuleCount
  let issues :=
    if walkableCount < 3 then
      issues ++ ["Insufficient walkable surfaces: " ++ toString walkableCount ++ " (minimum 3)"]
    else issues
  let orbCount := a.countModulesByType .OrbEnergy
  let issues :=
    if orbCount == 0 then issues ++ ["No energy orbs found"] else issues
  issues

/-- Association-list lookup (HashMap::get). -/
def alLookup {κ α : Type} [DecidableEq κ] (l : List (κ × α)) (k : κ) : Option α :=
  match l.find? (fun p => p.1 = k) with
  | some p => some p.2
  | none => none

/-- Association-list lookup with default (HashMap::get + unwrap_or). -/
def alLookupD {κ α : Type} [DecidableEq κ] (l : List (κ × α)) (k : κ) (d : α) : α :=
  match alLookup l k with
  | some v => v
  | none => d

/-- Association-list insert with replace-on-existing-key (HashMap::insert). -/
def alInsert {κ α : Type} [DecidableEq κ] (l : List (κ × α)) (k : κ) (v : α) :
    List (κ × α) :=
  match l with
  | [] => [(k, v)]
  | (k2, v2) :: rest =>
    if k2 = k then (k, v) :: rest else (k2, v2) :: alInsert rest k v

/-- RulesDatabase contents (data/mod.rs RulesDatabase::initialize), in source
declaration order.  get_all_rules returns these in an unspecified HashMap
iteration order, so pipeline functions take the order as a parameter. -/
def rulesCatalog : List Rule :=
  [ { id := .NoJump
      tags := ["movement", "restriction", "difficulty_medium"]
      incompatibleWith := [.LowJump, .HighJump, .MoonGravity] }
  , { id := .LowJump
      tags := ["movement", "modifier", "difficulty_easy"]
      incompatibleWith := [.NoJump, .HighJump] }
  , { id := .HighJump
      tags := ["movement", "modifier", "difficulty_easy"]
      incompatibleWith := [.NoJump, .LowJump] }
  , { id := .SpeedUp
      tags := ["movement", "modifier", "difficulty_easy"]
      incompatibleWith := [] }
  , { id := .NoAttack
      tags := ["combat", "restriction", "difficulty_hard"]
      incompatibleWith := [] }
  , { id := .LavaFloor
      tags := ["hazard", "environment", "difficulty_medium"]
      incompatibleWith := [] }
  , { id := .ProjectileRain
      tags := ["hazard", "dynamic", "difficulty_hard"]
      incompatibleWith := [] }
  , { id := .OrbCollection
      tags := ["resource", "collection", "difficulty_easy"]
      incompatibleWith := [] }
  , { id := .MoonGravity
      tags := ["physics", "environment", "difficulty_medium"]
      incompatibleWith := [.NoJump] } ]

/-- EnvVarsDatabase contents (data/mod.rs EnvVarsDatabase::initialize), in
source declaration order; get_all_variables iterates a HashMap, so pipeline
functions take the order as a parameter. -/
def envVarsCatalog : List EnvVariable :=
  [ { id := .Gravity, defaultValue := ⟨1, 1⟩, range := (⟨1, 5⟩, ⟨3, 1⟩) }
  , { id := .GameSpeed, defaultValue := ⟨1, 1⟩, range := (⟨1, 2⟩, ⟨2, 1⟩) } ]

/-- ModulesDatabase contents (data/mod.rs ModulesDatabase::initialize),
restricted to id and wfc_weight.  Iteration order is immaterial here: the
entries only seed a keyed weight map. -/
def modulesCatalog : List ModuleDefinition :=
  [ ⟨.Player, some 1⟩
  , ⟨.OrbEnergy, some 15⟩
  , ⟨.FloorStd, some 30⟩
  , ⟨.FloorLarge, some 20⟩
  , ⟨.WallLow, some 15⟩
  , ⟨.WallHigh, some 10⟩
  , ⟨.PanelGlass, some 7⟩
  , ⟨.RampLow, some 12⟩
  , ⟨.RampSteep, some 10⟩
  , ⟨.MoveTeleporterIn, some 5⟩
  , ⟨.MoveTeleporterOut, some 5⟩
  , ⟨.MoveClimbSurface, some 8⟩
  , ⟨.HazardLavaPit, some 5⟩
  , ⟨.HazardLaserEmitterStatic, some 3⟩
  , ⟨.HazardLaserTurretRotate, some 2⟩
  , ⟨.InteractButtonFloor, some 7⟩
  , ⟨.InteractButtonWall, some 6⟩
  , ⟨.InteractLever, some 6⟩
  , ⟨.InteractEnemySpawner, some 4⟩
  , ⟨.InteractBarrierEnergy, some 5⟩
  , ⟨.DecorArchMetallic, some 4⟩ ]

/-- AnomalySeverity of monitoring/mod.rs. -/
inductive AnomalySeverity where
  | Critical
  | Warning
  | Info
deriving DecidableEq, Repr

/-- Anomaly record of monitoring/mod.rs (detected_at timestamp and the
optional json context, always None along the embedded paths, omitted). -/
structure Anomaly where
  category : String
  message : String
  severity : AnomalySeverity
deriving DecidableEq, Repr

/-- AnomalyMonitor of monitoring/mod.rs; generation_start is modelled by a
flag, with the elapsed reading supplied separately to
check_generation_time. -/
structure AnomalyMonitor where
  anomalies : List Anomaly
  metrics : List (String × FloatQ)
  rulesApplied : List RuleId
  generationStarted : Bool
deriving DecidableEq, Repr

/-- AnomalyMonitor::new. -/
def AnomalyMonitor.new : AnomalyMonitor :=
  { anomalies := [], metrics := [], rulesApplied := [], generationStarted := false }

/-- AnomalyMonitor::start_generation. -/
def AnomalyMonitor.startGeneration (m : AnomalyMonitor) : AnomalyMonitor :=
  { m with generationStarted := true }

/-- AnomalyMonitor::record_rule_application. -/
def AnomalyMonitor.recordRuleApplication (m : AnomalyMonitor) (ruleId : RuleId) :
    AnomalyMonitor :=
  { m with rulesApplied := m.rulesApplied ++ [ruleId] }

/-- AnomalyMonitor::record_metric (HashMap::insert semantics). -/
def AnomalyMonitor.recordMetric (m : AnomalyMonitor) (name : String) (value : FloatQ) :
    AnomalyMonitor :=
  { m with metrics := alInsert m.metrics name value }

/-- AnomalyMonitor::report_anomaly: append one anomaly. -/
def AnomalyMonitor.reportAnomaly (m : AnomalyMonitor) (category : String)
    (message : String) (severity : AnomalySeverity) : AnomalyMonitor :=
  { m with anomalies := m.anomalies ++ [⟨category, message, severity⟩] }

/-- AnomalyMonitor::has_critical_anomalies. -/
def AnomalyMonitor.hasCriticalAnomalies (m : AnomalyMonitor) : Bool :=
  m.anomalies.any (fun a => a.severity == .Critical)

/-- AnomalyMonitor::check_generation_time, with the Instant::elapsed reading
passed in as milliseconds.  Note the source shape: the 10-second Critical arm
is the else-branch of the 5-second Warning test. -/
def AnomalyMonitor.checkGenerationTime (m : AnomalyMonitor) (elapsedMs : FloatQ) :
    AnomalyMonitor :=
  if m.generationStarted then
    let m := m.recordMetric "generation_time_ms" elapsedMs
    if FloatQ.blt ⟨5000, 1⟩ elapsedMs then
      m.reportAnomaly "PERFORMANCE" "Generation took over 5s (expected < 5s)" .Warning
    else if FloatQ.blt ⟨10000, 1⟩ elapsedMs then
      m.reportAnomaly "PERFORMANCE" "Generation took over 10s (critically slow)" .Critical
    else m
  else m

/-- check_structural_integrity: every issue from
Arena::validate_structural_integrity becomes a Critical STRUCTURAL anomaly,
then every out-of-bounds module record becomes a Critical BOUNDS anomaly. -/
def AnomalyMonitor.checkStructuralIntegrity (m : AnomalyMonitor) (arena : Arena) :
    AnomalyMonitor :=
  let m := (arena.validateStructuralIntegrity).foldl
    (fun m issue => m.reportAnomaly "STRUCTURAL" issue .Critical) m
  arena.modules.foldl
    (fun m cell =>
      if cell.x < 0 || cell.y < 0 ||
         cell.x ≥ (arena.width : Int) || cell.y ≥ (arena.height : Int) then
        m.reportAnomaly "BOUNDS" "Module outside arena bounds" .Critical
      else m) m

/-- Inner loop of check_rule_compatibility's conflicting-rules scan: rule1
against every rule that follows it; only rule1's own incompatibility list is
consulted. -/
def AnomalyMonitor.checkPairsInner (m : AnomalyMonitor) (rule1 : Rule)
    (laterRules : List Rule) : AnomalyMonitor :=
  laterRules.foldl
    (fun m rule2 =>
      if rule1.incompatibleWith.contains rule2.id then
        m.reportAnomaly "RULES" "Incompatible rules active" .Critical
      else m) m

/-- Outer loop of check_rule_compatibility's conflicting-rules scan
(for (i, rule1) in enumerate, for rule2 in skip(i+1)). -/
def AnomalyMonitor.checkPairs : AnomalyMonitor → List Rule → AnomalyMonitor
  | m, [] => m
  | m, rule1 :: rest => AnomalyMonitor.checkPairs (m.checkPairsInner rule1 rest) rest

/-- check_rule_compatibility: the pairwise conflict scan followed by the
rule/environment and rule/module consistency warnings. -/
def AnomalyMonitor.checkRuleCompatibility (m : AnomalyMonitor) (arena : Arena) :
    AnomalyMonitor :=
  let m := m.checkPairs arena.activeRules
  arena.activeRules.foldl
    (fun m rule =>
      match rule.id with
      | .MoonGravity =>
        match alLookup arena.envVariables .Gravity with
        | some gravity =>
          if FloatQ.blt ⟨1, 2⟩ gravity then
            m.reportAnomaly "RULES" "Moon Gravity rule active but gravity too high" .Warning
          else m
        | none => m
      | .LavaFloor =>
        if arena.countModulesByType .HazardLavaPit == 0 then
          m.reportAnomaly "RULES" "Lava Floor rule active but no lava pits found" .Warning
        else m
      | _ => m) m

/-- check_gameplay_balance: orb density, hazard density and walkable-surface
thresholds over the total cell count. -/
def AnomalyMonitor.checkGameplayBalance (m : AnomalyMonitor) (arena : Arena) :
    AnomalyMonitor :=
  let totalCells := FloatQ.ofNat (arena.width * arena.height)
  let orbCount := FloatQ.ofNat (arena.countModulesByType .OrbEnergy)
  let orbDensity := orbCount.div totalCells
  let m := m.recordMetric "orb_density" orbDensity
  let m :=
    if orbDensity.blt ⟨1, 20⟩ then
      m.reportAnomaly "BALANCE" "Low energy orb density" .Warning
    else if FloatQ.blt ⟨3, 10⟩ orbDensity then
      m.reportAnomaly "BALANCE" "High energy orb density" .Info
    else m
  let hazardCount :=
    FloatQ.ofNat (arena.modules.filter (fun cell => isHazardModule cell.moduleId)).length
  let hazardDensity := hazardCount.div totalCells
  let m := m.recordMetric "hazard_density" hazardDensity
  let m :=
    if FloatQ.blt ⟨2, 5⟩ hazardDensity then
      m.reportAnomaly "BALANCE" "Excessive hazard density" .Warning
    else m
  let walkableCount := FloatQ.ofNat arena.walkableModuleCount
  let walkableRat := walkableCount.div totalCells
  let m := m.recordMetric "walkable_ratio" walkableRat
  if walkableRat.blt ⟨3, 10⟩ then
    m.reportAnomaly "BALANCE" "Insufficient walkable area" .Critical
  else m

/-- calculate_average_distance: mean pairwise Euclidean distance, f64::INFINITY
for fewer than two positions (see the FloatQ sqrt/infinity modelling note). -/
def calculateAverageDistance (positions : List (Int × Int)) : FloatQ :=
  if positions.length < 2 then floatInfinity
  else
    let pairs := positions.tails.foldl
      (fun acc t =>
        match t with
        | [] => acc
        | p :: rest => acc ++ rest.map (fun q => (p, q))) []
    let total := floatSum (pairs.map (fun pq =>
      let dx := FloatQ.ofInt (pq.1.1 - pq.2.1)
      let dy := FloatQ.ofInt (pq.1.2 - pq.2.2)
      ((dx.mul dx).add (dy.mul dy)).sqrtApprox))
    total.div (FloatQ.ofNat pairs.length)

/-- check_spatial_clustering: for lava pits and static laser emitters, warn
when more than one exists and the average pairwise distance is below 2. -/
def AnomalyMonitor.checkSpatialClustering (m : AnomalyMonitor) (arena : Arena) :
    AnomalyMonitor :=
  [ModuleId.HazardLavaPit, ModuleId.HazardLaserEmitterStatic].foldl
    (fun m moduleId =>
      let count := arena.countModulesByType moduleId
      if count > 1 then
        let positions := (arena.modules.filter (fun cell => cell.moduleId == moduleId)).map
          (fun cell => (cell.x, cell.y))
        if (calculateAverageDistance positions).blt ⟨2, 1⟩ then
          m.reportAnomaly "SPATIAL" "Hazard modules too clustered" .Warning
        else m
      else m) m

/-- check_module_distribution: spatial clustering, the mandatory player
module, and teleporter pairing.  The per-type HashMap of counts is modelled
pointwise by count_modules_by_type. -/
def AnomalyMonitor.checkModuleDistribution (m : AnomalyMonitor) (arena : Arena) :
    AnomalyMonitor :=
  let m := m.checkSpatialClustering arena
  let m :=
    if arena.countModulesByType .Player == 0 then
      m.reportAnomaly "MODULES" "Player module missing" .Critical
    else m
  let teleporterIn := arena.countModulesByType .MoveTeleporterIn
  let teleporterOut := arena.countModulesByType .MoveTeleporterOut
  if teleporterIn ≠ teleporterOut && (teleporterIn > 0 || teleporterOut > 0) then
    m.reportAnomaly "MODULES" "Unmatched teleporters" .Warning
  else m

/-- check_environmental_variables: per-variable expected-range warnings (the
stored association list is iterated in storage order; only membership of the
resulting anomalies is ever observed) and the missing-gravity Critical. -/
def AnomalyMonitor.checkEnvironmentalVariables (m : AnomalyMonitor) (arena : Arena) :
    AnomalyMonitor :=
  let m := arena.envVariables.foldl
    (fun m ev =>
      let expected : FloatQ × FloatQ :=
        match ev.1 with
        | .Gravity => (⟨1, 10⟩, ⟨3, 1⟩)
        | .GameSpeed => (⟨1, 2⟩, ⟨2, 1⟩)
      if ev.2.blt expected.1 || FloatQ.blt expected.2 ev.2 then
        m.reportAnomaly "ENVIRONMENT" "Value outside expected range" .Warning
      else m) m
  if (alLookup arena.envVariables .Gravity).isNone then
    m.reportAnomaly "ENVIRONMENT" "Gravity environmental variable not set" .Critical
  else m

/-- count_adjacent_walkable of the monitor: orthogonal neighbors holding a
FloorStd/FloorLarge/RampSteep record. -/
def countAdjacentWalkable (arena : Arena) (x y : Int) : Nat :=
  [((0 : Int), (1 : Int)), (0, -1), (1, 0), (-1, 0)].foldl
    (fun count d =>
      match arena.getCell (x + d.1) (y + d.2) with
      | some cell => if isWalkableModule cell.moduleId then count + 1 else count
      | none => count) 0

/-- Walkable-or-collectible predicate of flood_fill_reachable
(FloorStd | FloorLarge | RampSteep | OrbEnergy | InteractButtonFloor). -/
def isReachableSurface (m : ModuleId) : Bool :=
  match m with
  | .FloorStd | .FloorLarge | .RampSteep | .OrbEnergy | .InteractButtonFloor => true
  | _ => false

/-- Loop of flood_fill_reachable, with explicit fuel; the source's while loop
performs at most 5 + 4 * (number of module records) iterations (every pushed
position beyond the start carries a module record), so the fuel below never
runs out and the computed membership set matches the source's HashSet.  Push
order onto the stack is immaterial to that set. -/
def floodLoop (arena : Arena) : Nat → List (Int × Int) → List (Int × Int) →
    List (Int × Int)
  | 0, _, visited => visited
  | _ + 1, [], visited => visited
  | fuel + 1, p :: stack, visited =>
    if visited.contains p then floodLoop arena fuel stack visited
    else
      let visited2 := visited ++ [p]
      let pushes :=
        ([((0 : Int), (1 : Int)), (0, -1), (1, 0), (-1, 0)].filterMap
          (fun d =>
            let np := (p.1 + d.1, p.2 + d.2)
            if visited.contains np then none
            else
              match arena.getCell np.1 np.2 with
              | some cell => if isReachableSurface cell.moduleId then some np else none
              | none => none))
      floodLoop arena fuel (pushes ++ stack) visited2

/-- flood_fill_reachable from a start position. -/
def floodFillReachable (arena : Arena) (start : Int × Int) : List (Int × Int) :=
  floodLoop arena (4 * arena.modules.length + 8) [start] []

/-- check_reachability: find the player, flood fill, count unreachable orbs —
and then report nothing: the anomaly emission is commented out in source. -/
def AnomalyMonitor.checkReachability (m : AnomalyMonitor) (arena : Arena) :
    AnomalyMonitor :=
  let playerPos := (arena.modules.find? (fun cell => cell.moduleId == .Player)).map
    (fun cell => (cell.x, cell.y))
  match playerPos with
  | some start =>
    let reachable := floodFillReachable arena start
    let orbPositions := (arena.modules.filter (fun cell => cell.moduleId == .OrbEnergy)).map
      (fun cell => (cell.x, cell.y))
    let _unreachableOrbs := (orbPositions.filter (fun pos => ¬ reachable.contains pos)).length
    m
  | none => m

/-- check_spatial_coherence: isolated orb / floor-button Criticals, then the
reachability pass. -/
def AnomalyMonitor.checkSpatialCoherence (m : AnomalyMonitor) (arena : Arena) :
    AnomalyMonitor :=
  let m := arena.modules.foldl
    (fun m cell =>
      match cell.moduleId with
      | .OrbEnergy | .InteractButtonFloor =>
        if countAdjacentWalkable arena cell.x cell.y == 0 then
          m.reportAnomaly "SPATIAL" "Module is isolated" .Critical
        else m
      | _ => m) m
  m.checkReachability arena

/-- AnomalyMonitor::validate_arena: the six checks in source order. -/
def AnomalyMonitor.validateArena (m : AnomalyMonitor) (arena : Arena) : AnomalyMonitor :=
  let m := m.checkStructuralIntegrity arena
  let m := m.checkRuleCompatibility arena
  let m := m.checkGameplayBalance arena
  let m := m.checkModuleDistribution arena
  let m := m.checkEnvironmentalVariables arena
  m.checkSpatialCoherence arena

/-- calculate_rule_weight: diversity and difficulty weighting of a candidate
rule against the already-selected rules. -/
def calculateRuleWeight (rule : Rule) (currentRules : List Rule) : FloatQ :=
  let weight : FloatQ := ⟨1, 1⟩
  let movementRules := (currentRules.filter (fun r => r.tags.contains "movement")).length
  let hazardRules := (currentRules.filter (fun r => r.tags.contains "hazard")).length
  let weight :=
    if rule.tags.contains "movement" && movementRules > 1 then weight.mul ⟨1, 2⟩ else weight
  let weight :=
    if rule.tags.contains "hazard" && hazardRules > 1 then weight.mul ⟨1, 2⟩ else weight
  if rule.tags.contains "difficulty_easy" then weight.mul ⟨6, 5⟩
  else if rule.tags.contains "difficulty_hard" then weight.mul ⟨4, 5⟩
  else weight

/-- Index selection of select_compatible_rules: subtract weights from the
target until it is nonpositive; if the loop never triggers the index stays at
its initial value 0. -/
def rouletteIndex : List FloatQ → FloatQ → Nat → Nat
  | [], _, _ => 0
  | w :: rest, target, i =>
    let target2 := target.sub w
    if target2.leZero then i else rouletteIndex rest target2 (i + 1)

/-- Fallback Rule for the (unreachable) out-of-range index lookup. -/
def placeholderRule : Rule := ⟨.NoJump, [], []⟩

/-- Loop body of select_compatible_rules, iterated rule_count times: filter
available candidates, weight them, roulette-select one, extend the exclusion
set with its incompatibility list. -/
def selectLoop (allRules : List Rule) :
    Nat → List Rule → List RuleId → AnomalyMonitor → Rng →
    List Rule × AnomalyMonitor × Rng
  | 0, selected, _, m, rng => (selected, m, rng)
  | n + 1, selected, incompatibleSet, m, rng =>
    let available := (allRules.filter
        (fun rule => ¬ incompatibleSet.contains rule.id)).filter
        (fun rule => ¬ selected.any (fun s => s.id == rule.id))
    if available.isEmpty then
      (selected,
       m.reportAnomaly "RULES"
         ("Could only select " ++ toString selected.length ++ " rules out of requested")
         .Warning,
       rng)
    else
      let weights := available.map (fun rule => calculateRuleWeight rule selected)
      let totalWeight := floatSum weights
      let (q, rng2) := rng.next
      let target := q.mul totalWeight
      let selectedIndex := rouletteIndex weights target 0
      let selectedRule := available.getD selectedIndex placeholderRule
      let incompatibleSet2 := incompatibleSet ++ selectedRule.incompatibleWith
      let m2 := m.recordRuleApplication selectedRule.id
      selectLoop allRules n (selected ++ [selectedRule]) incompatibleSet2 m2 rng2

/-- select_compatible_rules, with the HashMap iteration order of
RulesDatabase::get_all_rules passed in as allRules. -/
def selectCompatibleRules (allRules : List Rule) (count : Nat) (m : AnomalyMonitor)
    (rng : Rng) : List Rule × AnomalyMonitor × Rng :=
  selectLoop allRules count [] [] m rng

/-- Name of the metric recorded per environment variable
(format "env_{:?}" on EnvVarId). -/
def envMetricName (id : EnvVarId) : String :=
  match id with
  | .Gravity => "env_Gravity"
  | .GameSpeed => "env_GameSpeed"

/-- configure_environment, with the HashMap iteration order of
EnvVarsDatabase::get_all_variables passed in as envVars: per variable, apply
any active-rule override, otherwise bounded jitter, then clamp and store. -/
def configureEnvironment (envVars : List EnvVariable) (arena : Arena)
    (m : AnomalyMonitor) (rng : Rng) : Arena × AnomalyMonitor × Rng :=
  envVars.foldl
    (fun acc envVar =>
      let (arena, m, rng) := acc
      let state := arena.activeRules.foldl
        (fun st rule =>
          let (value, ruleApplied, rng) := st
          match rule.id, envVar.id with
          | .MoonGravity, .Gravity =>
            let (q, rng2) := rng.next
            (FloatQ.add ⟨3, 10⟩ (q.mul ⟨1, 5⟩), true, rng2)
          | .SpeedUp, .GameSpeed =>
            let (q, rng2) := rng.next
            (value.mul (FloatQ.add ⟨6, 5⟩ (q.mul ⟨3, 10⟩)), true, rng2)
          | _, _ => (value, ruleApplied, rng))
        (envVar.defaultValue, false, rng)
      let (value, ruleApplied, rng) := state
      let (value, rng) :=
        if ¬ ruleApplied then
          let variance := (envVar.range.2.sub envVar.range.1).mul ⟨1, 10⟩
          let (q, rng2) := rng.next
          (value.add ((q.sub ⟨1, 2⟩).mul variance), rng2)
        else (value, rng)
      let value := value.clamp envVar.range.1 envVar.range.2
      let arena := { arena with envVariables := alInsert arena.envVariables envVar.id value }
      let m := m.recordMetric (envMetricName envVar.id) value
      (arena, m, rng))
    (arena, m, rng)

/-- WFCGenerator state (the raw StdRng pointer is modelled by threading the
generator's Rng through the calls that use it). -/
structure WFCGenerator where
  width : Nat
  height : Nat
  moduleWeights : List (ModuleId × FloatQ)
  constraints : List (String × Int)
deriving Repr

/-- WFCGenerator::new. -/
def WFCGenerator.new (width height : Nat) : WFCGenerator :=
  { width := width, height := height, moduleWeights := [], constraints := [] }

/-- WFCGenerator::add_module_constraint (the tags argument is ignored by the
source as well). -/
def WFCGenerator.addModuleConstraint (wfc : WFCGenerator) (moduleId : ModuleId)
    (weight : Nat) : WFCGenerator :=
  { wfc with moduleWeights := alInsert wfc.moduleWeights moduleId (FloatQ.ofNat weight) }

/-- WFCGenerator::increase_module_weight. -/
def WFCGenerator.increaseModuleWeight (wfc : WFCGenerator) (moduleId : ModuleId)
    (multiplier : FloatQ) : WFCGenerator :=
  let current := alLookupD wfc.moduleWeights moduleId ⟨1, 1⟩
  { wfc with moduleWeights := alInsert wfc.moduleWeights moduleId (current.mul multiplier) }

/-- WFCGenerator::decrease_module_weight (also a multiplication in source). -/
def WFCGenerator.decreaseModuleWeight (wfc : WFCGenerator) (moduleId : ModuleId)
    (multiplier : FloatQ) : WFCGenerator :=
  let current := alLookupD wfc.moduleWeights moduleId ⟨1, 1⟩
  { wfc with moduleWeights := alInsert wfc.moduleWeights moduleId (current.mul multiplier) }

/-- WFCGenerator::add_constraint. -/
def WFCGenerator.addConstraint (wfc : WFCGenerator) (name : String) (value : Int) :
    WFCGenerator :=
  { wfc with constraints := alInsert wfc.constraints name value }

/-- Roulette loop of select_weighted_module: subtract weights from the target
until nonpositive, falling back to FloorStd. -/
def rouletteModule : List (ModuleId × FloatQ) → FloatQ → ModuleId
  | [], _ => .FloorStd
  | (moduleId, w) :: rest, target =>
    let target2 := target.sub w
    if target2.leZero then moduleId else rouletteModule rest target2

/-- WFCGenerator::select_weighted_module: weighted roulette over the fixed
five-candidate subset, with catalog-independent fallback weights. -/
def WFCGenerator.selectWeightedModule (wfc : WFCGenerator) (rng : Rng) :
    ModuleId × Rng :=
  let weights : List (ModuleId × FloatQ) :=
    [ (.FloorStd, alLookupD wfc.moduleWeights .FloorStd ⟨10, 1⟩)
    , (.FloorLarge, alLookupD wfc.moduleWeights .FloorLarge ⟨5, 1⟩)
    , (.RampSteep, alLookupD wfc.moduleWeights .RampSteep ⟨3, 1⟩)
    , (.HazardLavaPit, alLookupD wfc.moduleWeights .HazardLavaPit ⟨2, 1⟩)
    , (.HazardLaserEmitterStatic, alLookupD wfc.moduleWeights .HazardLaserEmitterStatic ⟨1, 1⟩) ]
  let totalWeight := floatSum (weights.map (fun item => item.2))
  let (q, rng2) := rng.next
  (rouletteModule weights (q.mul totalWeight), rng2)

/-- Layout entry produced by the filler: position and module type (the params
component is always None in source). -/
abbrev LayoutEntry := (Int × Int) × ModuleId

/-- Repeated random placement of enforce_constraints: push n records of the
given type at random positions (no occupancy check). -/
def pushRandomModules (wfc : WFCGenerator) (moduleId : ModuleId) :
    Nat → List LayoutEntry → Rng → List LayoutEntry × Rng
  | 0, result, rng => (result, rng)
  | n + 1, result, rng =>
    let (x, rng1) := rng.genRange wfc.width
    let (y, rng2) := rng1.genRange wfc.height
    pushRandomModules wfc moduleId n (result ++ [(((x : Int), (y : Int)), moduleId)]) rng2

/-- WFCGenerator::enforce_constraints: top up lava pits and orbs to their
declared minima at uniformly random (possibly occupied) positions. -/
def WFCGenerator.enforceConstraints (wfc : WFCGenerator) (result : List LayoutEntry)
    (rng : Rng) : List LayoutEntry × Rng :=
  let (result, rng) :=
    match alLookup wfc.constraints "min_lava_pits" with
    | some minLava =>
      let currentLava := (result.filter (fun (e : LayoutEntry) => e.2 == ModuleId.HazardLavaPit)).length
      if (currentLava : Int) < minLava then
        pushRandomModules wfc .HazardLavaPit (minLava - currentLava).toNat result rng
      else (result, rng)
    | none => (result, rng)
  match alLookup wfc.constraints "min_orbs" with
  | some minOrbs =>
    let currentOrbs := (result.filter (fun (e : LayoutEntry) => e.2 == ModuleId.OrbEnergy)).length
    if (currentOrbs : Int) < minOrbs then
      pushRandomModules wfc .OrbEnergy (minOrbs - currentOrbs).toNat result rng
    else (result, rng)
  | none => (result, rng)

/-- WFCGenerator::generate: row-major 60%-density fill by weighted roulette,
then constraint enforcement. -/
def WFCGenerator.generate (wfc : WFCGenerator) (rng : Rng) :
    List LayoutEntry × Rng :=
  let filled := (List.range wfc.height).foldl
    (fun acc y =>
      (List.range wfc.width).foldl
        (fun acc x =>
          let (result, rng) := acc
          let (q, rng1) := rng.next
          if q.blt ⟨3, 5⟩ then
            let (moduleId, rng2) := wfc.selectWeightedModule rng1
            (result ++ [(((x : Int), (y : Int)), moduleId)], rng2)
          else (result, rng1))
        acc)
    (([] : List LayoutEntry), rng)
  let (result, rng) := filled
  wfc.enforceConstraints result rng

/-- add_rule_constraints: per-rule weight adjustments and minimum-count
constraints fed to the filler. -/
def addRuleConstraints (wfc : WFCGenerator) (rule : Rule) : WFCGenerator :=
  match rule.id with
  | .LavaFloor =>
    let wfc := wfc.increaseModuleWeight .HazardLavaPit ⟨3, 1⟩
    wfc.addConstraint "min_lava_pits" 2
  | .NoJump =>
    let wfc := wfc.increaseModuleWeight .RampSteep ⟨2, 1⟩
    wfc.decreaseModuleWeight .FloorLarge ⟨1, 2⟩
  | .OrbCollection =>
    let wfc := wfc.increaseModuleWeight .OrbEnergy ⟨5, 2⟩
    wfc.addConstraint "min_orbs" 5
  | _ => wfc

/-- has_adjacent_hazard: any orthogonal neighbor holding a lava pit or static
laser emitter. -/
def hasAdjacentHazard (arena : Arena) (x y : Int) : Bool :=
  [((0 : Int), (1 : Int)), (0, -1), (1, 0), (-1, 0)].any
    (fun d =>
      match arena.getCell (x + d.1) (y + d.2) with
      | some cell =>
        match cell.moduleId with
        | .HazardLavaPit | .HazardLaserEmitterStatic => true
        | _ => false
      | none => false)

/-- find_safe_spawn_location: first FloorStd/FloorLarge record not adjacent
to a hazard, falling back to the arena center. -/
def findSafeSpawnLocation (arena : Arena) : Int × Int :=
  match arena.modules.find?
    (fun cell =>
      (cell.moduleId == ModuleId.FloorStd || cell.moduleId == ModuleId.FloorLarge) &&
      ¬ hasAdjacentHazard arena cell.x cell.y) with
  | some cell => (cell.x, cell.y)
  | none => ((arena.width : Int) / 2, (arena.height : Int) / 2)

/-- generate_base_layout: configure the filler from the module catalog and the
active rules, run it, write its output into the arena, then guarantee a
player spawn. -/
def generateBaseLayout (arena : Arena) (m : AnomalyMonitor) (rng : Rng) :
    Arena × AnomalyMonitor × Rng :=
  let wfc := WFCGenerator.new arena.width arena.height
  let wfc := modulesCatalog.foldl
    (fun wfc module_ =>
      match module_.wfcWeight with
      | some weight => wfc.addModuleConstraint module_.id weight
      | none => wfc) wfc
  let wfc := arena.activeRules.foldl addRuleConstraints wfc
  let (layout, rng) := wfc.generate rng
  let arena := layout.foldl
    (fun arena entry => arena.addModule entry.1.1 entry.1.2 entry.2) arena
  let arena :=
    if ¬ arena.modules.any (fun cell => cell.moduleId == .Player) then
      let spawnPos := findSafeSpawnLocation arena
      arena.addModule spawnPos.1 spawnPos.2 .Player
    else arena
  (arena, m, rng)

/-- Placement loop of add_projectile_hazards: count attempts, each placing a
rotating laser turret only on a free cell. -/
def projectileLoop : Nat → Arena → Rng → Arena × Rng
  | 0, arena, rng => (arena, rng)
  | n + 1, arena, rng =>
    let (x, rng1) := rng.genRange arena.width
    let (y, rng2) := rng1.genRange arena.height
    let arena :=
      if (arena.getCell (x : Int) (y : Int)).isNone then
        arena.addModule (x : Int) (y : Int) .HazardLaserTurretRotate
      else arena
    projectileLoop n arena rng2

/-- add_projectile_hazards: 2 + gen_range(0..3) placement attempts. -/
def addProjectileHazards (arena : Arena) (rng : Rng) : Arena × Rng :=
  let (extra, rng1) := rng.genRange 3
  projectileLoop (2 + extra) arena rng1

/-- enhance_lava_hazards: each existing lava pit expands with probability 1/2
into one random orthogonal neighbor when that neighbor is in bounds and
free. -/
def enhanceLavaHazards (arena : Arena) (rng : Rng) : Arena × Rng :=
  let lavaPositions := (arena.modules.filter
    (fun cell => cell.moduleId == ModuleId.HazardLavaPit)).map
    (fun cell => (cell.x, cell.y))
  lavaPositions.foldl
    (fun acc pos =>
      let (arena, rng) := acc
      let (q, rng1) := rng.next
      if q.blt ⟨1, 2⟩ then
        let (di, rng2) := rng1.genRange 4
        let d := [((0 : Int), (1 : Int)), (0, -1), (1, 0), (-1, 0)].getD di (0, 1)
        let nx := pos.1 + d.1
        let ny := pos.2 + d.2
        if 0 ≤ nx && 0 ≤ ny && nx < (arena.width : Int) && ny < (arena.height : Int) &&
           (arena.getCell nx ny).isNone then
          (arena.addModule nx ny .HazardLavaPit, rng2)
        else (arena, rng2)
      else (arena, rng1))
    (arena, rng)

/-- apply_rule_modifications: per active rule, the targeted edits, then a
rule-application record in the monitor. -/
def applyRuleModifications (arena : Arena) (m : AnomalyMonitor) (rng : Rng) :
    Arena × AnomalyMonitor × Rng :=
  arena.activeRules.foldl
    (fun acc rule =>
      let (arena, m, rng) := acc
      let (arena, rng) :=
        match rule.id with
        | .ProjectileRain => addProjectileHazards arena rng
        | .LavaFloor => enhanceLavaHazards arena rng
        | _ => (arena, rng)
      (arena, m.recordRuleApplication rule.id, rng))
    (arena, m, rng)

/-- find_spawnable_locations: free cells orthogonally adjacent to a walkable
surface, in row-major scan order. -/
def findSpawnableLocations (arena : Arena) : List (Int × Int) :=
  let walkableSurfaces := (arena.modules.filter
    (fun cell => isWalkableModule cell.moduleId)).map (fun cell => (cell.x, cell.y))
  (List.range arena.height).foldl
    (fun acc y =>
      (List.range arena.width).foldl
        (fun acc x =>
          let xi := (x : Int)
          let yi := (y : Int)
          if (arena.getCell xi yi).isNone then
            let neighbors := [(xi, yi + 1), (xi, yi - 1), (xi + 1, yi), (xi - 1, yi)]
            if neighbors.any (fun pos => walkableSurfaces.contains pos) then
              acc ++ [(xi, yi)]
            else acc
          else acc)
        acc)
    ([] : List (Int × Int))

/-- Element swap on a list (Vec::swap). -/
def listSwap (l : List (Int × Int)) (i j : Nat) : List (Int × Int) :=
  let vi := l.getD i (0, 0)
  let vj := l.getD j (0, 0)
  (l.set i vj).set j vi

/-- Fisher–Yates loop of rand's SliceRandom::shuffle: for i from len-1 down
to 1, swap position i with a uniformly drawn position in 0..=i. -/
def shuffleLoop : Nat → List (Int × Int) → Rng → List (Int × Int) × Rng
  | 0, l, rng => (l, rng)
  | i + 1, l, rng =>
    let (j, rng1) := rng.genRange (i + 2)
    shuffleLoop i (listSwap l (i + 1) j) rng1

/-- SliceRandom::shuffle of a position vector. -/
def shufflePositions (l : List (Int × Int)) (rng : Rng) : List (Int × Int) × Rng :=
  match l.length with
  | 0 => (l, rng)
  | n + 1 => shuffleLoop n l rng

/-- Orb-placement loop of place_interactive_elements: pop candidate cells
from the end of the shuffled vector, stopping early when it empties. -/
def orbLoop : Nat → Arena → List (Int × Int) → Arena × List (Int × Int)
  | 0, arena, locations => (arena, locations)
  | n + 1, arena, locations =>
    match locations.getLast? with
    | some pos => orbLoop n (arena.addModule pos.1 pos.2 .OrbEnergy) locations.dropLast
    | none => (arena, locations)

/-- Interactive-element loop of place_interactive_elements: pop a candidate
cell, then draw the element kind uniformly among three choices. -/
def interactiveLoop : Nat → Arena → List (Int × Int) → Rng →
    Arena × List (Int × Int) × Rng
  | 0, arena, locations, rng => (arena, locations, rng)
  | n + 1, arena, locations, rng =>
    match locations.getLast? with
    | some pos =>
      let (k, rng1) := rng.genRange 3
      let element : ModuleId :=
        match k with
        | 0 => .InteractButtonFloor
        | 1 => .InteractLever
        | _ => .InteractBarrierEnergy
      interactiveLoop n (arena.addModule pos.1 pos.2 element) locations.dropLast rng1
    | none => (arena, locations, rng)

/-- place_interactive_elements: shuffle the spawnable cells, then place
max(w*h/20, 3) orbs and max(w*h/40, 1) interactive elements without
replacement. -/
def placeInteractiveElements (arena : Arena) (m : AnomalyMonitor) (rng : Rng) :
    Arena × AnomalyMonitor × Rng :=
  let spawnableLocations := findSpawnableLocations arena
  let (spawnableLocations, rng) := shufflePositions spawnableLocations rng
  let orbCount := Nat.max (arena.width * arena.height / 20) 3
  let (arena, spawnableLocations) := orbLoop orbCount arena spawnableLocations
  let interactiveCount := Nat.max (arena.width * arena.height / 40) 1
  let (arena, _, rng) := interactiveLoop interactiveCount arena spawnableLocations rng
  (arena, m, rng)

/-- find_free_position: up to 100 uniform draws looking for an unoccupied
cell. -/
def findFreePosition (arena : Arena) : Nat → Rng → Option (Int × Int) × Rng
  | 0, rng => (none, rng)
  | attempts + 1, rng =>
    let (x, rng1) := rng.genRange arena.width
    let (y, rng2) := rng1.genRange arena.height
    if (arena.getCell (x : Int) (y : Int)).isNone then (some ((x : Int), (y : Int)), rng2)
    else findFreePosition arena attempts rng2

/-- Floor-injection loop of balance_arena: needed times, place a standard
floor at a free position when one is found within the attempt budget. -/
def balanceLoop : Nat → Arena → Rng → Arena × Rng
  | 0, arena, rng => (arena, rng)
  | n + 1, arena, rng =>
    let (posOpt, rng1) := findFreePosition arena 100 rng
    let arena :=
      match posOpt with
      | some pos => arena.addModule pos.1 pos.2 .FloorStd
      | none => arena
    balanceLoop n arena rng1

/-- balance_arena: when the walkable-module count is below w*h/3, inject
standard floors and record an Info anomaly with the shortfall. -/
def balanceArena (arena : Arena) (m : AnomalyMonitor) (rng : Rng) :
    Arena × AnomalyMonitor × Rng :=
  let walkableCount := arena.walkableModuleCount
  let requiredWalkable := arena.width * arena.height / 3
  if walkableCount < requiredWalkable then
    let needed := requiredWalkable - walkableCount
    let (arena, rng) := balanceLoop needed arena rng
    let m := m.reportAnomaly "BALANCE"
      ("Added " ++ toString needed ++ " floor tiles to meet minimum walkable area")
      .Info
    (arena, m, rng)
  else (arena, m, rng)

/-- Stages 1 through 6 of generate_with_monitoring: rule selection,
environment configuration, base layout, rule modifications, interactive
placement and balancing.  size and rule_count are the caller arguments;
allRules and envVars are the observable HashMap iteration orders of the two
catalogs (see the modelling note). -/
def runStages (size ruleCount : Nat) (allRules : List Rule)
    (envVars : List EnvVariable) (m : AnomalyMonitor) (rng : Rng) :
    Arena × AnomalyMonitor :=
  let m0 := m.startGeneration
  let draw := rng.next
  let arena0 := Arena.new size size draw.1
  let s1 := selectCompatibleRules allRules ruleCount m0 draw.2
  let arena1 := { arena0 with activeRules := s1.1 }
  let s2 := configureEnvironment envVars arena1 s1.2.1 s1.2.2
  let s3 := generateBaseLayout s2.1 s2.2.1 s2.2.2
  let s4 := applyRuleModifications s3.1 s3.2.1 s3.2.2
  let s5 := placeInteractiveElements s4.1 s4.2.1 s4.2.2
  let s6 := balanceArena s5.1 s5.2.1 s5.2.2
  (s6.1, s6.2.1)

/-- Completion of the pipeline after stage 6: stamp generation_time_ms, run
the full validation against the finished arena, then re-check the elapsed
time. -/
def buildPipeline (size ruleCount : Nat) (allRules : List Rule)
    (envVars : List EnvVariable) (elapsedMs : FloatQ) (m : AnomalyMonitor)
    (rng : Rng) : Arena × AnomalyMonitor :=
  let s := runStages size ruleCount allRules envVars m rng
  let arenaFinal :=
    { s.1 with generationMetadata :=
        { (s.1).generationMetadata with generationTimeMs := elapsedMs } }
  let mFinal := ((s.2).validateArena arenaFinal).checkGenerationTime elapsedMs
  (arenaFinal, mFinal)

/-- generate_with_monitoring: the pipeline above, then the Critical gate —
bail out exactly when the monitor holds a Critical anomaly. -/
def generateWithMonitoring (size ruleCount : Nat) (allRules : List Rule)
    (envVars : List EnvVariable) (elapsedMs : FloatQ) (m : AnomalyMonitor)
    (rng : Rng) : Except String Arena × AnomalyMonitor :=
  let result := buildPipeline size ruleCount allRules envVars elapsedMs m rng
  if result.2.hasCriticalAnomalies then
    (Except.error "Arena generation failed due to critical anomalies", result.2)
  else
    (Except.ok result.1, result.2)

/-- Rule ids of a generation outcome (empty for a failed generation). -/
def runRuleIds (r : Except String Arena) : List RuleId :=
  match r with
  | .ok a => a.activeRules.map (fun rule => rule.id)
  | .error _ => []

/-- Concrete rng stream for a rule-free 6x6 generation: draw 0 seeds the
metadata, draws 1-2 leave both environment variables at their defaults,
draws 3-24 fill the first eleven cells with standard floors, draws 25-49
leave the remaining cells empty, draws 50-54 make the candidate shuffle the
identity, and every later draw points at the occupied cell (0,0), so the
balancing stage's free-position search exhausts its attempt budget. -/
def cexStream (n : Nat) : FloatQ :=
  if n < 1 then ⟨0, 1⟩
  else if n < 3 then ⟨1, 2⟩
  else if n < 25 then ⟨0, 1⟩
  else if n < 50 then ⟨9, 10⟩
  else if n < 55 then ⟨999, 1000⟩
  else ⟨0, 1⟩

/-- The generation outcome on cexStream: generate(6, 6, 0, seed) with the
catalogs iterated in declaration order and a 100 ms elapsed reading. -/
def cexOut : Except String Arena × AnomalyMonitor :=
  generateWithMonitoring 6 0 rulesCatalog envVarsCatalog ⟨100, 1⟩
    AnomalyMonitor.new ⟨cexStream, 0⟩

/-- The Grid that cexOut returns (checked by rfl/decide below): eleven
standard floors, one player, three orbs, one floor button — 11 walkable
records on a 6x6 grid whose balancing target is 12. -/
def cexArenaVal : Arena :=
  { width := 6
    height := 6
    modules :=
      [ ⟨0, 0, .FloorStd⟩, ⟨1, 0, .FloorStd⟩, ⟨2, 0, .FloorStd⟩, ⟨3, 0, .FloorStd⟩
      , ⟨4, 0, .FloorStd⟩, ⟨5, 0, .FloorStd⟩, ⟨0, 1, .FloorStd⟩, ⟨1, 1, .FloorStd⟩
      , ⟨2, 1, .FloorStd⟩, ⟨3, 1, .FloorStd⟩, ⟨4, 1, .FloorStd⟩, ⟨0, 0, .Player⟩
      , ⟨4, 2, .OrbEnergy⟩, ⟨3, 2, .OrbEnergy⟩, ⟨2, 2, .OrbEnergy⟩
      , ⟨1, 2, .InteractButtonFloor⟩ ]
    activeRules := []
    envVariables := [(.Gravity, ⟨200, 200⟩), (.GameSpeed, ⟨80, 80⟩)]
    generationMetadata :=
      { seed := ⟨0, 1⟩
        generationTimeMs := ⟨100, 1⟩
        algorithmVersion := "1.0.0"
        constraintsApplied := [] } }

/-- Concrete rng stream for a one-rule 6x6 generation; identical to cexStream
except that draw 1 (value 9/20) is consumed by the rule-selection roulette
and the environment draws shift to positions 2-3. -/
def orderStream (n : Nat) : FloatQ :=
  if n < 1 then ⟨0, 1⟩
  else if n < 2 then ⟨9, 20⟩
  else if n < 4 then ⟨1, 2⟩
  else if n < 26 then ⟨0, 1⟩
  else if n < 51 then ⟨9, 10⟩
  else if n < 56 then ⟨999, 1000⟩
  else ⟨0, 1⟩

/-- generate(6, 6, 1, seed) on orderStream with the rules catalog iterated in
declaration order. -/
def orderRun1 : Except String Arena × AnomalyMonitor :=
  generateWithMonitoring 6 1 rulesCatalog envVarsCatalog ⟨100, 1⟩
    AnomalyMonitor.new ⟨orderStream, 0⟩

/-- The same call with the same stream, but with the rules catalog iterated
in the reversed order — still the identical catalog contents. -/
def orderRun2 : Except String Arena × AnomalyMonitor :=
  generateWithMonitoring 6 1 rulesCatalog.reverse envVarsCatalog ⟨100, 1⟩
    AnomalyMonitor.new ⟨orderStream, 0⟩

/-- SpeedUp exactly as in the catalog: its incompatibility list is empty. -/
def speedUpRule : Rule :=
  { id := .SpeedUp, tags := ["movement", "modifier", "difficulty_easy"], incompatibleWith := [] }

/-- A NoAttack variant declaring SpeedUp incompatible in one direction only;
Arena.active_rules is an ordinary Vec<Rule>, so validation must handle such
values (the external mutation surface can install arbitrary rules). -/
def noAttackVsSpeedUp : Rule :=
  { id := .NoAttack
    tags := ["combat", "restriction", "difficulty_hard"]
    incompatibleWith := [.SpeedUp] }

/-- Arena whose active pair is incompatible only in the direction the
pairwise scan never consults: the later rule lists the earlier one. -/
def oneWayPairArena : Arena :=
  { Arena.new 5 5 ⟨0, 1⟩ with activeRules := [speedUpRule, noAttackVsSpeedUp] }

/-- The same pair in the opposite order: the earlier rule lists the later
one, which is the direction the scan does consult. -/
def oneWayPairArenaSwapped : Arena :=
  { Arena.new 5 5 ⟨0, 1⟩ with activeRules := [noAttackVsSpeedUp, speedUpRule] }

/-- Arena with two records stacked on the same cell, oldest first. -/
def stackedCellArena : Arena :=
  ((Arena.new 5 5 ⟨0, 1⟩).addModule 0 0 .FloorStd).addModule 0 0 .HazardLavaPit

/-- Arena holding a single out-of-bounds record. -/
def outOfBoundsArena : Arena :=
  (Arena.new 2 2 ⟨0, 1⟩).addModule (-1) 0 .FloorStd

/-! ### Helper lemmas about the monitor -/

/-- Anomalies of report_anomaly: the old list with one entry appended. -/
theorem reportAnomaly_anomalies (m : AnomalyMonitor) (c msg : String)
    (s : AnomalySeverity) :
    (m.reportAnomaly c msg s).anomalies = m.anomalies ++ [⟨c, msg, s⟩] := rfl

/-- Every report_anomaly call only extends the anomaly list. -/
theorem sublist_reportAnomaly (m : AnomalyMonitor) (c msg : String)
    (s : AnomalySeverity) :
    m.anomalies.Sublist (m.reportAnomaly c msg s).anomalies :=
  List.sublist_append_left _ _

/-- Folding a step that only extends the anomaly list only extends the
anomaly list. -/
theorem anomalies_sublist_foldl {α : Type} (f : AnomalyMonitor → α → AnomalyMonitor)
    (hf : ∀ (m : AnomalyMonitor) (x : α), m.anomalies.Sublist (f m x).anomalies) :
    ∀ (l : List α) (m : AnomalyMonitor), m.anomalies.Sublist (l.foldl f m).anomalies
  | [], _ => List.Sublist.refl _
  | x :: rest, m => (hf m x).trans (anomalies_sublist_foldl f hf rest (f m x))

/-- When some element of the fold emits an anomaly satisfying P and every
step only extends the list, the fold's result holds such an anomaly. -/
theorem anomaly_emitted_foldl {α : Type} (f : AnomalyMonitor → α → AnomalyMonitor)
    (hf : ∀ (m : AnomalyMonitor) (x : α), m.anomalies.Sublist (f m x).anomalies)
    (P : Anomaly → Prop) {x : α}
    (hemit : ∀ m, ∃ a ∈ (f m x).anomalies, P a) :
    ∀ (l : List α), x ∈ l → ∀ (m : AnomalyMonitor),
      ∃ a ∈ (l.foldl f m).anomalies, P a := by
  intro l
  induction l with
  | nil => intro hx; cases hx
  | cons y rest ih =>
    intro hx m
    rcases List.mem_cons.mp hx with hxy | hxr
    · subst hxy
      obtain ⟨a, ha, hPa⟩ := hemit m
      exact ⟨a, (anomalies_sublist_foldl f hf rest (f m x)).subset ha, hPa⟩
    · exact ih hxr (f m y)

/-- Conditional report_anomaly only extends the anomaly list. -/
theorem sublist_ite_report (m : AnomalyMonitor) (cnd : Prop) [Decidable cnd]
    (c msg : String) (s : AnomalySeverity) :
    m.anomalies.Sublist (if cnd then m.reportAnomaly c msg s else m).anomalies := by
  split
  · exact sublist_reportAnomaly _ _ _ _
  · exact List.Sublist.refl _

/-- check_spatial_clustering only extends the anomaly list. -/
theorem checkSpatialClustering_sublist (m : AnomalyMonitor) (arena : Arena) :
    m.anomalies.Sublist (m.checkSpatialClustering arena).anomalies := by
  unfold AnomalyMonitor.checkSpatialClustering
  apply anomalies_sublist_foldl
  intro m mid
  dsimp only
  split
  · exact sublist_ite_report _ _ _ _ _
  · exact List.Sublist.refl _

/-- check_module_distribution only extends the anomaly list. -/
theorem checkModuleDistribution_sublist (m : AnomalyMonitor) (arena : Arena) :
    m.anomalies.Sublist (m.checkModuleDistribution arena).anomalies := by
  unfold AnomalyMonitor.checkModuleDistribution
  dsimp only
  exact (checkSpatialClustering_sublist m arena).trans
    ((sublist_ite_report _ _ _ _ _).trans (sublist_ite_report _ _ _ _ _))

/-- check_environmental_variables only extends the anomaly list. -/
theorem checkEnvironmentalVariables_sublist (m : AnomalyMonitor) (arena : Arena) :
    m.anomalies.Sublist (m.checkEnvironmentalVariables arena).anomalies := by
  unfold AnomalyMonitor.checkEnvironmentalVariables
  dsimp only
  refine List.Sublist.trans ?_ (sublist_ite_report _ _ _ _ _)
  apply anomalies_sublist_foldl
  intro m ev
  dsimp only
  exact sublist_ite_report _ _ _ _ _

/-- check_reachability leaves the whole monitor untouched: the flood fill and
the unreachable-orb count are computed, but the anomaly emission is commented
out in the source. -/
theorem checkReachability_eq (m : AnomalyMonitor) (arena : Arena) :
    m.checkReachability arena = m := by
  unfold AnomalyMonitor.checkReachability
  cases h : arena.modules.find? (fun cell => cell.moduleId == .Player) <;> simp [h]

/-- check_spatial_coherence only extends the anomaly list. -/
theorem checkSpatialCoherence_sublist (m : AnomalyMonitor) (arena : Arena) :
    m.anomalies.Sublist (m.checkSpatialCoherence arena).anomalies := by
  unfold AnomalyMonitor.checkSpatialCoherence
  dsimp only
  rw [checkReachability_eq]
  apply anomalies_sublist_foldl
  intro m cell
  dsimp only
  split
  · exact sublist_ite_report _ _ _ _ _
  · exact sublist_ite_report _ _ _ _ _
  · exact List.Sublist.refl _

/-- check_generation_time only extends the anomaly list. -/
theorem checkGenerationTime_sublist (m : AnomalyMonitor) (e : FloatQ) :
    m.anomalies.Sublist (m.checkGenerationTime e).anomalies := by
  unfold AnomalyMonitor.checkGenerationTime
  split
  · dsimp only
    split
    · exact sublist_reportAnomaly _ _ _ _
    · split
      · exact sublist_reportAnomaly _ _ _ _
      · exact List.Sublist.refl _
  · exact List.Sublist.refl _

/-- The inner pairwise scan only extends the anomaly list. -/
theorem checkPairsInner_sublist (m : AnomalyMonitor) (rule1 : Rule)
    (laterRules : List Rule) :
    m.anomalies.Sublist (m.checkPairsInner rule1 laterRules).anomalies := by
  unfold AnomalyMonitor.checkPairsInner
  apply anomalies_sublist_foldl
  intro m rule2
  dsimp only
  exact sublist_ite_report _ _ _ _ _

/-- The pairwise scan only extends the anomaly list. -/
theorem checkPairs_sublist (m : AnomalyMonitor) (rules : List Rule) :
    m.anomalies.Sublist (m.checkPairs rules).anomalies := by
  induction rules generalizing m with
  | nil => exact List.Sublist.refl _
  | cons rule1 rest ih =>
    exact (checkPairsInner_sublist m rule1 rest).trans (ih _)

/-- When rule1's incompatibility list names some rule2 of the later-rules
list, the inner scan emits a Critical RULES anomaly. -/
theorem checkPairsInner_emits (rule1 rule2 : Rule) (laterRules : List Rule)
    (hmem : rule2 ∈ laterRules) (hinc : rule2.id ∈ rule1.incompatibleWith) :
    ∀ (m : AnomalyMonitor), ∃ a ∈ (m.checkPairsInner rule1 laterRules).anomalies,
      a.severity = .Critical ∧ a.category = "RULES" := by
  intro m
  unfold AnomalyMonitor.checkPairsInner
  refine anomaly_emitted_foldl _ ?_ _ ?_ _ hmem m
  · intro m r
    dsimp only
    exact sublist_ite_report _ _ _ _ _
  · intro m
    dsimp only
    rw [if_pos]
    · exact ⟨⟨"RULES", "Incompatible rules active", .Critical⟩, by
        simp [AnomalyMonitor.reportAnomaly], rfl, rfl⟩
    · exact List.elem_eq_true_of_mem hinc

/-- When an earlier-positioned active rule names a later-positioned one in
its incompatibility list, the pairwise scan emits a Critical RULES anomaly. -/
theorem checkPairs_emits (r1 r2 : Rule) (rules : List Rule)
    (hsub : [r1, r2].Sublist rules) (hinc : r2.id ∈ r1.incompatibleWith) :
    ∀ (m : AnomalyMonitor), ∃ a ∈ (m.checkPairs rules).anomalies,
      a.severity = .Critical ∧ a.category = "RULES" := by
  induction rules with
  | nil => cases hsub
  | cons rule rest ih =>
    intro m
    cases hsub with
    | cons _ htail =>
      exact ih htail (m.checkPairsInner rule rest)
    | cons₂ _ htail =>
      obtain ⟨a, ha, hPa⟩ :=
        checkPairsInner_emits r1 r2 rest (List.singleton_sublist.mp htail) hinc m
      exact ⟨a, (checkPairs_sublist _ rest).subset ha, hPa⟩

/-- The rule/environment consistency loop of check_rule_compatibility only
extends the anomaly list. -/
theorem checkRuleCompatibility_sublist (m : AnomalyMonitor) (arena : Arena) :
    m.anomalies.Sublist (m.checkRuleCompatibility arena).anomalies := by
  unfold AnomalyMonitor.checkRuleCompatibility
  dsimp only
  refine (checkPairs_sublist m arena.activeRules).trans ?_
  apply anomalies_sublist_foldl
  intro m rule
  dsimp only
  split
  · split
    · exact sublist_ite_report _ _ _ _ _
    · exact List.Sublist.refl _
  · exact sublist_ite_report _ _ _ _ _
  · exact List.Sublist.refl _

/-- check_rule_compatibility reports a Critical anomaly whenever an
earlier-positioned active rule declares a later-positioned one
incompatible. -/
theorem checkRuleCompatibility_emits (m : AnomalyMonitor) (arena : Arena)
    (r1 r2 : Rule) (hsub : [r1, r2].Sublist arena.activeRules)
    (hinc : r2.id ∈ r1.incompatibleWith) :
    ∃ a ∈ (m.checkRuleCompatibility arena).anomalies,
      a.severity = .Critical ∧ a.category = "RULES" := by
  unfold AnomalyMonitor.checkRuleCompatibility
  dsimp only
  obtain ⟨a, ha, hPa⟩ := checkPairs_emits r1 r2 arena.activeRules hsub hinc m
  refine ⟨a, ?_, hPa⟩
  refine (anomalies_sublist_foldl _ ?_ _ _).subset ha
  intro m rule
  dsimp only
  split
  · split
    · exact sublist_ite_report _ _ _ _ _
    · exact List.Sublist.refl _
  · exact sublist_ite_report _ _ _ _ _
  · exact List.Sublist.refl _

/-- When the walkable count is below three tenths of the cell count,
check_gameplay_balance emits a Critical anomaly. -/
theorem checkGameplayBalance_emits_walkable (m : AnomalyMonitor) (arena : Arena)
    (h : 10 * arena.walkableModuleCount < 3 * (arena.width * arena.height)) :
    ∃ a ∈ (m.checkGameplayBalance arena).anomalies, a.severity = .Critical := by
  unfold AnomalyMonitor.checkGameplayBalance
  dsimp only
  have hcond : (FloatQ.div (FloatQ.ofNat arena.walkableModuleCount)
      (FloatQ.ofNat (arena.width * arena.height))).blt ⟨3, 10⟩ = true := by
    simp only [FloatQ.div, FloatQ.ofNat, FloatQ.blt, decide_eq_true_eq]
    push_cast
    omega
  rw [if_pos hcond]
  exact ⟨⟨"BALANCE", "Insufficient walkable area", .Critical⟩, by
    simp [AnomalyMonitor.reportAnomaly], rfl⟩

/-- A monitor holding a Critical anomaly reports critical anomalies. -/
theorem hasCritical_of_mem (m : AnomalyMonitor) (a : Anomaly)
    (ha : a ∈ m.anomalies) (hcrit : a.severity = .Critical) :
    m.hasCriticalAnomalies = true := by
  unfold AnomalyMonitor.hasCriticalAnomalies
  exact List.any_eq_true.mpr ⟨a, ha, by simp [hcrit]⟩

/-! ### Helper lemmas about rule selection -/

/-- The catalog's incompatibility declarations are symmetric (checked by
evaluation over the nine catalog rules). -/
theorem rulesCatalog_symm : ∀ r1 ∈ rulesCatalog, ∀ r2 ∈ rulesCatalog,
    r1.id ∈ r2.incompatibleWith → r2.id ∈ r1.incompatibleWith := by decide

/-- No catalog rule declares itself incompatible. -/
theorem rulesCatalog_irrefl : ∀ r ∈ rulesCatalog, r.id ∉ r.incompatibleWith := by decide

/-- rouletteIndex yields 0 (its initial index, kept when the subtraction loop
never triggers) or an in-range index counted from its start value. -/
theorem rouletteIndex_zero_or_bounds (l : List FloatQ) (t : FloatQ) (i : Nat) :
    rouletteIndex l t i = 0 ∨
      (i ≤ rouletteIndex l t i ∧ rouletteIndex l t i < i + l.length) := by
  induction l generalizing t i with
  | nil => exact Or.inl rfl
  | cons w rest ih =>
    unfold rouletteIndex
    dsimp only
    split
    · right
      constructor
      · exact Nat.le_refl _
      · simp only [List.length_cons]
        omega
    · rcases ih (t.sub w) (i + 1) with h0 | ⟨hle, hlt⟩
      · exact Or.inl h0
      · right
        constructor
        · omega
        · simp only [List.length_cons]
          omega

/-- On a nonempty weight list, the selected index is in range. -/
theorem rouletteIndex_lt_length (l : List FloatQ) (t : FloatQ) (hl : l ≠ []) :
    rouletteIndex l t 0 < l.length := by
  have hpos : 0 < l.length := List.length_pos.mpr hl
  rcases rouletteIndex_zero_or_bounds l t 0 with h0 | ⟨_, hlt⟩
  · omega
  · omega

/-- getD at an in-range index is a member. -/
theorem getD_mem_of_lt {α : Type} (l : List α) (i : Nat) (d : α) (h : i < l.length) :
    l.getD i d ∈ l := by
  rw [List.getD_eq_getElem l d h]
  exact List.getElem_mem h

/-- Invariant of the selection loop: everything selected comes from the
catalog, every selected rule's incompatibility list is inside the exclusion
set, and no selected rule's id is in the exclusion set. -/
def SelInv (selected : List Rule) (iset : List RuleId) : Prop :=
  (∀ s ∈ selected, s ∈ rulesCatalog) ∧
  (∀ s ∈ selected, ∀ i ∈ s.incompatibleWith, i ∈ iset) ∧
  (∀ s ∈ selected, s.id ∉ iset)

/-- Under the invariant, the selection result never holds a pair related by
either incompatibility direction (catalog symmetry makes one direction
suffice). -/
theorem selectLoop_no_incompatible (allRules : List Rule)
    (hall : ∀ r ∈ allRules, r ∈ rulesCatalog) :
    ∀ (n : Nat) (selected : List Rule) (iset : List RuleId) (m : AnomalyMonitor)
      (rng : Rng), SelInv selected iset →
      ∀ r1 ∈ (selectLoop allRules n selected iset m rng).1,
      ∀ r2 ∈ (selectLoop allRules n selected iset m rng).1,
        r2.id ∉ r1.incompatibleWith := by
  intro n
  induction n with
  | zero =>
    intro selected iset m rng hinv r1 h1 r2 h2 hmem
    simp only [selectLoop] at h1 h2
    exact hinv.2.2 r2 h2 (hinv.2.1 r1 h1 _ hmem)
  | succ n ih =>
    intro selected iset m rng hinv
    rw [selectLoop]
    dsimp only
    split
    · intro r1 h1 r2 h2 hmem
      exact hinv.2.2 r2 h2 (hinv.2.1 r1 h1 _ hmem)
    · rename_i hne
      apply ih
      set available := (allRules.filter
          (fun rule => ¬ iset.contains rule.id)).filter
          (fun rule => ¬ selected.any (fun s => s.id == rule.id)) with havail
      set weights := available.map (fun rule => calculateRuleWeight rule selected)
        with hweights
      set target := ((rng.next).1).mul (floatSum weights) with htarget
      set c := available.getD (rouletteIndex weights target 0) placeholderRule with hc
      have hcmem : c ∈ available := by
        have hnonempty : available ≠ [] := by
          intro hnil
          rw [hnil] at hne
          simp at hne
        have hwne : weights ≠ [] := by
          rw [hweights]
          simp [hnonempty]
        have hlt := rouletteIndex_lt_length weights target hwne
        rw [hweights, List.length_map] at hlt
        exact getD_mem_of_lt available _ placeholderRule hlt
      have hcall : c ∈ allRules := by
        have h1 := (List.mem_filter.mp hcmem).1
        exact (List.mem_filter.mp h1).1
      have hccat : c ∈ rulesCatalog := hall c hcall
      have hcnotin : c.id ∉ iset := by
        have h1 := (List.mem_filter.mp hcmem).1
        have h2 := (List.mem_filter.mp h1).2
        simp only [decide_eq_true_eq] at h2
        intro hmem
        exact h2 (List.elem_eq_true_of_mem hmem)
      refine ⟨?_, ?_, ?_⟩
      · intro s hs
        rcases List.mem_append.mp hs with hs | hs
        · exact hinv.1 s hs
        · rw [List.mem_singleton.mp hs]
          exact hccat
      · intro s hs i hi
        rcases List.mem_append.mp hs with hs | hs
        · exact List.mem_append_left _ (hinv.2.1 s hs i hi)
        · rw [List.mem_singleton.mp hs] at hi
          exact List.mem_append_right _ hi
      · intro s hs hsin
        rcases List.mem_append.mp hs with hs | hs
        · rcases List.mem_append.mp hsin with hin | hin
          · exact hinv.2.2 s hs hin
          · have : c.id ∈ s.incompatibleWith :=
              rulesCatalog_symm s (hinv.1 s hs) c hccat hin
            exact hcnotin (hinv.2.1 s hs _ this)
        · rw [List.mem_singleton.mp hs] at hsin
          rcases List.mem_append.mp hsin with hin | hin
          · exact hcnotin hin
          · exact rulesCatalog_irrefl c hccat hin

/-! ### Helper lemmas about module counts through the pipeline -/

/-- count_modules_by_type after add_module: one more when the types match. -/
theorem countModulesByType_addModule (a : Arena) (x y : Int) (mid t : ModuleId) :
    (a.addModule x y mid).countModulesByType t =
      a.countModulesByType t + (if mid == t then 1 else 0) := by
  unfold Arena.addModule Arena.countModulesByType
  dsimp only
  rw [List.filter_append, List.length_append]
  cases h : (mid == t) <;> simp [List.filter, h]

/-- add_module of a non-player type keeps the player count. -/
theorem addModule_player_count (a : Arena) (x y : Int) (mid : ModuleId)
    (h : ¬ mid = ModuleId.Player) :
    (a.addModule x y mid).countModulesByType .Player = a.countModulesByType .Player := by
  rw [countModulesByType_addModule]
  simp [h]

/-- Folding a property-preserving step preserves the property. -/
theorem foldl_preserves {σ α : Type} (f : σ → α → σ) (P : σ → Prop)
    (hstep : ∀ (s : σ) (x : α), P s → P (f s x)) :
    ∀ (l : List α) (s : σ), P s → P (l.foldl f s)
  | [], _, h => h
  | x :: rest, s, h => foldl_preserves f P hstep rest (f s x) (hstep s x h)

/-- The roulette over module weights picks a listed module or the FloorStd
fallback. -/
theorem rouletteModule_mem_or_floor (l : List (ModuleId × FloatQ)) (t : FloatQ) :
    rouletteModule l t = .FloorStd ∨ ∃ p ∈ l, rouletteModule l t = p.1 := by
  induction l generalizing t with
  | nil => exact Or.inl rfl
  | cons w rest ih =>
    unfold rouletteModule
    dsimp only
    split
    · exact Or.inr ⟨w, List.mem_cons_self _ _, rfl⟩
    · rcases ih (t.sub w.2) with h | ⟨p, hp, he⟩
      · exact Or.inl h
      · exact Or.inr ⟨p, List.mem_cons_of_mem _ hp, he⟩

/-- select_weighted_module only draws from its fixed five-candidate subset,
never the player module. -/
theorem selectWeightedModule_ne_player (wfc : WFCGenerator) (rng : Rng) :
    ¬ (wfc.selectWeightedModule rng).1 = ModuleId.Player := by
  unfold WFCGenerator.selectWeightedModule
  dsimp only
  rcases rouletteModule_mem_or_floor
      [ (.FloorStd, alLookupD wfc.moduleWeights .FloorStd ⟨10, 1⟩)
      , (.FloorLarge, alLookupD wfc.moduleWeights .FloorLarge ⟨5, 1⟩)
      , (.RampSteep, alLookupD wfc.moduleWeights .RampSteep ⟨3, 1⟩)
      , (.HazardLavaPit, alLookupD wfc.moduleWeights .HazardLavaPit ⟨2, 1⟩)
      , (.HazardLaserEmitterStatic, alLookupD wfc.moduleWeights .HazardLaserEmitterStatic ⟨1, 1⟩) ]
      (((Rng.next rng).1).mul (floatSum
        ([ (ModuleId.FloorStd, alLookupD wfc.moduleWeights .FloorStd ⟨10, 1⟩)
        , (.FloorLarge, alLookupD wfc.moduleWeights .FloorLarge ⟨5, 1⟩)
        , (.RampSteep, alLookupD wfc.moduleWeights .RampSteep ⟨3, 1⟩)
        , (.HazardLavaPit, alLookupD wfc.moduleWeights .HazardLavaPit ⟨2, 1⟩)
        , (.HazardLaserEmitterStatic, alLookupD wfc.moduleWeights .HazardLaserEmitterStatic ⟨1, 1⟩) ].map
          (fun item => item.2)))) with h | ⟨p, hp, he⟩
  · rw [h]; nofun
  · simp only [List.mem_cons, List.not_mem_nil, or_false] at hp
    rcases hp with rfl | rfl | rfl | rfl | rfl <;> rw [he] <;> simp

/-- The random top-up placements keep a per-entry property holding of the
accumulated layout and of the pushed type. -/
theorem pushRandomModules_no_player (wfc : WFCGenerator) (mid : ModuleId)
    (hmid : ¬ mid = ModuleId.Player) :
    ∀ (n : Nat) (result : List LayoutEntry) (rng : Rng),
      (∀ e ∈ result, ¬ e.2 = ModuleId.Player) →
      ∀ e ∈ (pushRandomModules wfc mid n result rng).1, ¬ e.2 = ModuleId.Player := by
  intro n
  induction n with
  | zero => intro result rng h; exact h
  | succ n ih =>
    intro result rng h
    rw [pushRandomModules]
    dsimp only
    apply ih
    intro e he
    rcases List.mem_append.mp he with he | he
    · exact h e he
    · rw [List.mem_singleton.mp he]
      exact hmid

/-- enforce_constraints never introduces a player entry. -/
theorem enforceConstraints_no_player (wfc : WFCGenerator) (result : List LayoutEntry)
    (rng : Rng) (h : ∀ e ∈ result, ¬ e.2 = ModuleId.Player) :
    ∀ e ∈ (wfc.enforceConstraints result rng).1, ¬ e.2 = ModuleId.Player := by
  unfold WFCGenerator.enforceConstraints
  dsimp only
  have hlava : ∀ e ∈ (match alLookup wfc.constraints "min_lava_pits" with
      | some minLava =>
        if ((result.filter (fun (e : LayoutEntry) => e.2 == ModuleId.HazardLavaPit)).length : Int) < minLava then
          pushRandomModules wfc .HazardLavaPit
            (minLava - (result.filter (fun (e : LayoutEntry) => e.2 == ModuleId.HazardLavaPit)).length).toNat result rng
        else (result, rng)
      | none => (result, rng)).1, ¬ e.2 = ModuleId.Player := by
    split
    · split
      · exact pushRandomModules_no_player wfc _ (by simp) _ _ _ h
      · exact h
    · exact h
  generalize heq : (match alLookup wfc.constraints "min_lava_pits" with
      | some minLava =>
        if ((result.filter (fun (e : LayoutEntry) => e.2 == ModuleId.HazardLavaPit)).length : Int) < minLava then
          pushRandomModules wfc .HazardLavaPit
            (minLava - (result.filter (fun (e : LayoutEntry) => e.2 == ModuleId.HazardLavaPit)).length).toNat result rng
        else (result, rng)
      | none => (result, rng)) = mid1 at hlava ⊢
  split
  · split
    · exact pushRandomModules_no_player wfc _ (by simp) _ _ _ hlava
    · exact hlava
  · exact hlava

/-- The simplified fill never produces a player entry. -/
theorem wfcGenerate_no_player (wfc : WFCGenerator) (rng : Rng) :
    ∀ e ∈ (wfc.generate rng).1, ¬ e.2 = ModuleId.Player := by
  unfold WFCGenerator.generate
  dsimp only
  apply enforceConstraints_no_player
  apply foldl_preserves
    (P := fun (s : List LayoutEntry × Rng) => ∀ e ∈ s.1, ¬ e.2 = ModuleId.Player)
  · intro s y hs
    apply foldl_preserves
      (P := fun (s : List LayoutEntry × Rng) => ∀ e ∈ s.1, ¬ e.2 = ModuleId.Player)
    · intro s x hs
      dsimp only
      split
      · intro e he
        rcases List.mem_append.mp he with he | he
        · exact hs e he
        · rw [List.mem_singleton.mp he]
          exact selectWeightedModule_ne_player wfc _
      · exact hs
    · exact hs
  · intro e he
    cases he

/-- Zero player count means no record has the player type. -/
theorem player_count_eq_zero_iff (a : Arena) :
    a.countModulesByType .Player = 0 ↔
      ∀ c ∈ a.modules, ¬ c.moduleId = ModuleId.Player := by
  unfold Arena.countModulesByType
  rw [List.length_eq_zero, List.filter_eq_nil_iff]
  constructor
  · intro h c hc he
    exact h c hc (by simp [he])
  · intro h c hc hb
    exact h c hc (by simpa using hb)

/-- Writing a player-free layout into the arena keeps the player count. -/
theorem foldl_addLayout_player_count (layout : List LayoutEntry) :
    ∀ (a : Arena), (∀ e ∈ layout, ¬ e.2 = ModuleId.Player) →
      (layout.foldl (fun arena entry => arena.addModule entry.1.1 entry.1.2 entry.2)
        a).countModulesByType .Player = a.countModulesByType .Player := by
  induction layout with
  | nil => intro a _; rfl
  | cons e rest ih =>
    intro a h
    rw [List.foldl_cons, ih _ (fun x hx => h x (List.mem_cons_of_mem _ hx)),
      addModule_player_count _ _ _ _ (h e (List.mem_cons_self _ _))]

/-- Writing a player-free layout and then running the guaranteed-spawn step
leaves exactly one player record. -/
theorem writeLayout_ensure_player (a : Arena) (layout : List LayoutEntry)
    (h : ∀ c ∈ a.modules, ¬ c.moduleId = ModuleId.Player)
    (hl : ∀ e ∈ layout, ¬ e.2 = ModuleId.Player) :
    (let arena := layout.foldl
        (fun arena entry => arena.addModule entry.1.1 entry.1.2 entry.2) a
     let arena :=
       if ¬ arena.modules.any (fun cell => cell.moduleId == .Player) then
         let spawnPos := findSafeSpawnLocation arena
         arena.addModule spawnPos.1 spawnPos.2 .Player
       else arena
     arena).countModulesByType .Player = 1 := by
  dsimp only
  have hz : a.countModulesByType .Player = 0 := (player_count_eq_zero_iff a).mpr h
  have hcount2 := foldl_addLayout_player_count layout a hl
  rw [hz] at hcount2
  split
  · rw [countModulesByType_addModule, hcount2]
    simp
  · rename_i hany
    exfalso
    rw [Classical.not_not] at hany
    obtain ⟨c, hc, hbeq⟩ := List.any_eq_true.mp hany
    exact (player_count_eq_zero_iff _).mp hcount2 c hc (by simpa using hbeq)

/-- generate_base_layout yields exactly one player record when starting from a
player-free arena: the filler contributes none and the guaranteed-spawn step
then inserts exactly one. -/
theorem generateBaseLayout_player_count (a : Arena) (m : AnomalyMonitor) (rng : Rng)
    (h : ∀ c ∈ a.modules, ¬ c.moduleId = ModuleId.Player) :
    (generateBaseLayout a m rng).1.countModulesByType .Player = 1 := by
  unfold generateBaseLayout
  dsimp only
  exact writeLayout_ensure_player a _ h (wfcGenerate_no_player _ _)

/-- The projectile-placement loop keeps the player count. -/
theorem projectileLoop_player_count :
    ∀ (n : Nat) (a : Arena) (rng : Rng),
      (projectileLoop n a rng).1.countModulesByType .Player =
        a.countModulesByType .Player := by
  intro n
  induction n with
  | zero => intro a rng; rfl
  | succ n ih =>
    intro a rng
    rw [projectileLoop]
    dsimp only
    rw [ih]
    split
    · rw [addModule_player_count _ _ _ _ (by simp)]
    · rfl

/-- add_projectile_hazards keeps the player count. -/
theorem addProjectileHazards_player_count (a : Arena) (rng : Rng) :
    (addProjectileHazards a rng).1.countModulesByType .Player =
      a.countModulesByType .Player := by
  unfold addProjectileHazards
  dsimp only
  exact projectileLoop_player_count _ _ _

/-- enhance_lava_hazards keeps the player count. -/
theorem enhanceLavaHazards_player_count (a : Arena) (rng : Rng) :
    (enhanceLavaHazards a rng).1.countModulesByType .Player =
      a.countModulesByType .Player := by
  unfold enhanceLavaHazards
  dsimp only
  apply foldl_preserves
    (P := fun (s : Arena × Rng) =>
      s.1.countModulesByType .Player = a.countModulesByType .Player)
  · intro s pos hs
    dsimp only
    split
    · split
      · rw [← hs]
        exact addModule_player_count _ _ _ _ (by simp)
      · exact hs
    · exact hs
  · rfl

/-- apply_rule_modifications keeps the player count. -/
theorem applyRuleModifications_player_count (a : Arena) (m : AnomalyMonitor)
    (rng : Rng) :
    (applyRuleModifications a m rng).1.countModulesByType .Player =
      a.countModulesByType .Player := by
  unfold applyRuleModifications
  apply foldl_preserves
    (P := fun (s : Arena × AnomalyMonitor × Rng) =>
      s.1.countModulesByType .Player = a.countModulesByType .Player)
  · intro s rule hs
    dsimp only
    split
    · rw [← hs]
      exact addProjectileHazards_player_count _ _
    · rw [← hs]
      exact enhanceLavaHazards_player_count _ _
    · exact hs
  · rfl

/-- The orb-placement loop keeps the player count. -/
theorem orbLoop_player_count :
    ∀ (n : Nat) (a : Arena) (locations : List (Int × Int)),
      (orbLoop n a locations).1.countModulesByType .Player =
        a.countModulesByType .Player := by
  intro n
  induction n with
  | zero => intro a locations; rfl
  | succ n ih =>
    intro a locations
    rw [orbLoop]
    split
    · rw [ih, addModule_player_count _ _ _ _ (by simp)]
    · rfl

/-- The interactive-element loop keeps the player count. -/
theorem interactiveLoop_player_count :
    ∀ (n : Nat) (a : Arena) (locations : List (Int × Int)) (rng : Rng),
      (interactiveLoop n a locations rng).1.countModulesByType .Player =
        a.countModulesByType .Player := by
  intro n
  induction n with
  | zero => intro a locations rng; rfl
  | succ n ih =>
    intro a locations rng
    rw [interactiveLoop]
    split
    · rename_i pos hpos
      dsimp only
      rw [ih]
      generalize (Rng.genRange rng 3).1 = k
      apply addModule_player_count
      rcases k with _ | _ | k <;> simp
    · rfl

/-- place_interactive_elements keeps the player count. -/
theorem placeInteractiveElements_player_count (a : Arena) (m : AnomalyMonitor)
    (rng : Rng) :
    (placeInteractiveElements a m rng).1.countModulesByType .Player =
      a.countModulesByType .Player := by
  unfold placeInteractiveElements
  dsimp only
  rw [interactiveLoop_player_count, orbLoop_player_count]

/-- The floor-injection loop keeps the player count. -/
theorem balanceLoop_player_count :
    ∀ (n : Nat) (a : Arena) (rng : Rng),
      (balanceLoop n a rng).1.countModulesByType .Player =
        a.countModulesByType .Player := by
  intro n
  induction n with
  | zero => intro a rng; rfl
  | succ n ih =>
    intro a rng
    rw [balanceLoop]
    dsimp only
    rw [ih]
    split
    · rw [addModule_player_count _ _ _ _ (by simp)]
    · rfl

/-- balance_arena keeps the player count. -/
theorem balanceArena_player_count (a : Arena) (m : AnomalyMonitor) (rng : Rng) :
    (balanceArena a m rng).1.countModulesByType .Player =
      a.countModulesByType .Player := by
  unfold balanceArena
  dsimp only
  split
  · exact balanceLoop_player_count _ _ _
  · rfl

/-- configure_environment does not touch the module list. -/
theorem configureEnvironment_modules (envVars : List EnvVariable) (a : Arena)
    (m : AnomalyMonitor) (rng : Rng) :
    (configureEnvironment envVars a m rng).1.modules = a.modules := by
  unfold configureEnvironment
  apply foldl_preserves
    (P := fun (s : Arena × AnomalyMonitor × Rng) => s.1.modules = a.modules)
  · intro s ev hs
    exact hs
  · rfl

/-- The six pipeline stages leave exactly one player record. -/
theorem runStages_player_count (size ruleCount : Nat) (allRules : List Rule)
    (envVars : List EnvVariable) (m : AnomalyMonitor) (rng : Rng) :
    (runStages size ruleCount allRules envVars m rng).1.countModulesByType .Player = 1 := by
  unfold runStages
  dsimp only
  rw [balanceArena_player_count, placeInteractiveElements_player_count,
    applyRuleModifications_player_count]
  apply generateBaseLayout_player_count
  intro c hc
  rw [configureEnvironment_modules] at hc
  exact absurd hc (List.not_mem_nil c)

/-- The validated pipeline result still has exactly one player record (the
final metadata stamp does not touch the module list). -/
theorem buildPipeline_player_count (size ruleCount : Nat) (allRules : List Rule)
    (envVars : List EnvVariable) (elapsedMs : FloatQ) (m : AnomalyMonitor)
    (rng : Rng) :
    (buildPipeline size ruleCount allRules envVars elapsedMs m rng).1.countModulesByType
      .Player = 1 :=
  runStages_player_count size ruleCount allRules envVars m rng

/-- Validation plus the elapsed-time check reports a Critical anomaly when the
walkable count of the validated arena is below three tenths of its cells. -/
theorem validate_hasCritical_of_low_walkable (m6 : AnomalyMonitor) (arena : Arena)
    (e : FloatQ)
    (h : 10 * arena.walkableModuleCount < 3 * (arena.width * arena.height)) :
    ((m6.validateArena arena).checkGenerationTime e).hasCriticalAnomalies = true := by
  unfold AnomalyMonitor.validateArena
  dsimp only
  obtain ⟨a, ha, hcrit⟩ := checkGameplayBalance_emits_walkable
    ((m6.checkStructuralIntegrity arena).checkRuleCompatibility arena) arena h
  apply hasCritical_of_mem _ a _ hcrit
  exact (checkGenerationTime_sublist _ e).subset
    ((checkSpatialCoherence_sublist _ arena).subset
      ((checkEnvironmentalVariables_sublist _ arena).subset
        ((checkModuleDistribution_sublist _ arena).subset ha)))

/-- find? over an appended list returns the first satisfying element. -/
theorem find?_append_first {α : Type} (p : α → Bool) (pre post : List α) (c : α)
    (hc : p c = true) (hpre : ∀ x ∈ pre, ¬ p x = true) :
    List.find? p (pre ++ c :: post) = some c := by
  induction pre with
  | nil => simp [List.find?_cons, hc]
  | cons x rest ih =>
    rw [List.cons_append, List.find?_cons]
    have hx : p x = false := by
      have := hpre x (List.mem_cons_self _ _)
      simpa using this
    rw [hx]
    exact ih (fun z hz => hpre z (List.mem_cons_of_mem _ hz))

/-- check_structural_integrity reports a Critical BOUNDS anomaly for every
out-of-bounds module record. -/
theorem checkStructuralIntegrity_emits_oob (m : AnomalyMonitor) (arena : Arena)
    (c : ArenaCell) (hc : c ∈ arena.modules)
    (hoob : c.x < 0 ∨ c.y < 0 ∨ (arena.width : Int) ≤ c.x ∨ (arena.height : Int) ≤ c.y) :
    ∃ an ∈ (m.checkStructuralIntegrity arena).anomalies,
      an.severity = .Critical ∧ an.category = "BOUNDS" := by
  unfold AnomalyMonitor.checkStructuralIntegrity
  dsimp only
  refine anomaly_emitted_foldl _ ?_ _ ?_ _ hc _
  · intro m cell
    dsimp only
    exact sublist_ite_report _ _ _ _ _
  · intro m
    dsimp only
    have hcond : (decide (c.x < 0) || decide (c.y < 0) ||
        decide (c.x ≥ (arena.width : Int)) || decide (c.y ≥ (arena.height : Int))) = true := by
      rcases hoob with h | h | h | h <;> simp [h]
    rw [if_pos hcond]
    exact ⟨⟨"BOUNDS", "Module outside arena bounds", .Critical⟩, by
      simp [AnomalyMonitor.reportAnomaly], rfl, rfl⟩

/-! ### Claim theorems -/

/-- C2: a generation call fails (returns an error rather than a Grid) if and
only if, after the final validation and elapsed-time check, the Monitor
contains at least one Critical anomaly; otherwise the built Grid is returned
even when Warning or Info anomalies are present. -/
theorem c2_failure_iff_critical_anomalies (size ruleCount : Nat)
    (allRules : List Rule) (envVars : List EnvVariable) (elapsedMs : FloatQ)
    (m : AnomalyMonitor) (rng : Rng) :
    (generateWithMonitoring size ruleCount allRules envVars elapsedMs m rng).1.isOk = true ↔
      (generateWithMonitoring size ruleCount allRules envVars elapsedMs
        m rng).2.hasCriticalAnomalies = false := by
  unfold generateWithMonitoring
  dsimp only
  split
  · rename_i h
    simp [Except.isOk, Except.toBool, h]
  · rename_i h
    rw [Bool.not_eq_true] at h
    simp [Except.isOk, Except.toBool, h]

/-- C3: at an elapsed reading of 11 seconds (over the 10-second threshold),
the time re-check records a Warning and no Critical anomaly — the 10-second
Critical branch is the dead else-arm of the 5-second test, so the claimed
Critical is never recorded. -/
theorem c3_generation_time_critical_branch_dead :
    ((AnomalyMonitor.new.startGeneration.checkGenerationTime ⟨11000, 1⟩).anomalies.map
      (fun a => a.severity)) = [.Warning] ∧
    (AnomalyMonitor.new.startGeneration.checkGenerationTime
      ⟨11000, 1⟩).hasCriticalAnomalies = false := by
  exact ⟨by decide, by decide⟩

/-- C8: the Monitor's reachability check computes the unreachable-orb count
via flood fill from the player position but never appends any anomaly —
running it returns the monitor unchanged. -/
theorem c8_reachability_frame (arena : Arena) (m : AnomalyMonitor) :
    m.checkReachability arena = m :=
  checkReachability_eq m arena

/-- C4 (counterexample): with SpeedUp listed first and a rule declaring
SpeedUp incompatible listed second — so that only the later rule lists the
earlier one — the rule-compatibility validation reports no Critical anomaly
at all, although the pair is incompatible in the claimed
either-direction sense. -/
theorem c4_counterexample :
    oneWayPairArena.activeRules = [speedUpRule, noAttackVsSpeedUp] ∧
    speedUpRule.id ∈ noAttackVsSpeedUp.incompatibleWith ∧
    ((AnomalyMonitor.new.checkRuleCompatibility oneWayPairArena).anomalies.filter
      (fun a => a.severity == .Critical)) = [] := by
  exact ⟨rfl, by decide, by decide⟩

/-- C4 (amended): the rule-compatibility validation reports a Critical RULES
anomaly for every pair of simultaneously-active rules in which the
earlier-positioned rule lists the later-positioned one in its own
incompatibility list; the reverse direction is not consulted. -/
theorem c4_pairwise_forward_check (arena : Arena) (m : AnomalyMonitor)
    (r1 r2 : Rule) (hsub : [r1, r2].Sublist arena.activeRules)
    (hinc : r2.id ∈ r1.incompatibleWith) :
    ∃ a ∈ (m.checkRuleCompatibility arena).anomalies,
      a.severity = .Critical ∧ a.category = "RULES" :=
  checkRuleCompatibility_emits m arena r1 r2 hsub hinc

/-- C4 (witness): the amended theorem applied to the swapped pair, where the
earlier rule does list the later one. -/
theorem c4_witness :
    [noAttackVsSpeedUp, speedUpRule].Sublist oneWayPairArenaSwapped.activeRules ∧
    speedUpRule.id ∈ noAttackVsSpeedUp.incompatibleWith ∧
    ∃ a ∈ (AnomalyMonitor.new.checkRuleCompatibility oneWayPairArenaSwapped).anomalies,
      a.severity = .Critical ∧ a.category = "RULES" :=
  ⟨List.Sublist.refl _, by decide,
    c4_pairwise_forward_check oneWayPairArenaSwapped AnomalyMonitor.new
      noAttackVsSpeedUp speedUpRule (List.Sublist.refl _) (by decide)⟩

/-- C5: for every requested rule count and every seed stream, rule selection
over candidates drawn from the built-in catalog never returns two active
rules where either declares the other incompatible. -/
theorem c5_selection_never_incompatible (allRules : List Rule) (count : Nat)
    (m : AnomalyMonitor) (rng : Rng) (hall : ∀ r ∈ allRules, r ∈ rulesCatalog) :
    ∀ r1 ∈ (selectCompatibleRules allRules count m rng).1,
    ∀ r2 ∈ (selectCompatibleRules allRules count m rng).1,
      r2.id ∉ r1.incompatibleWith := by
  unfold selectCompatibleRules
  have hinv : SelInv [] [] := by
    refine ⟨?_, ?_, ?_⟩ <;> intro s hs <;> cases hs
  exact selectLoop_no_incompatible allRules hall count [] [] m rng hinv

/-- C5 (witness): the theorem applied to the catalog itself, a rule count of
3 and a concrete stream. -/
theorem c5_witness :
    (∀ r ∈ rulesCatalog, r ∈ rulesCatalog) ∧
    (∀ r1 ∈ (selectCompatibleRules rulesCatalog 3 AnomalyMonitor.new ⟨cexStream, 0⟩).1,
     ∀ r2 ∈ (selectCompatibleRules rulesCatalog 3 AnomalyMonitor.new ⟨cexStream, 0⟩).1,
       r2.id ∉ r1.incompatibleWith) :=
  ⟨fun r hr => hr,
    c5_selection_never_incompatible rulesCatalog 3 AnomalyMonitor.new
      ⟨cexStream, 0⟩ (fun r hr => hr)⟩

/-- C9 (counterexample): with two records stacked on (0,0), get_cell returns
the record added first (the standard floor), not the most recently added
one (the lava pit) — coordinate lookup is first write wins, not last write
wins. -/
theorem c9_counterexample :
    stackedCellArena.modules =
      [⟨0, 0, .FloorStd⟩, ⟨0, 0, .HazardLavaPit⟩] ∧
    stackedCellArena.getCell 0 0 = some ⟨0, 0, .FloorStd⟩ ∧
    ¬ (ModuleId.FloorStd = ModuleId.HazardLavaPit) := by
  exact ⟨rfl, by decide, by decide⟩

/-- C9 (amended): for every Grid holding several records at the same (x, y),
get_cell returns the EARLIEST added matching record — first write wins. -/
theorem c9_get_cell_first_write (a : Arena) (x y : Int) (pre post : List ArenaCell)
    (c : ArenaCell) (hmods : a.modules = pre ++ c :: post)
    (hx : c.x = x) (hy : c.y = y)
    (hpre : ∀ c2 ∈ pre, ¬ (c2.x = x ∧ c2.y = y)) :
    a.getCell x y = some c := by
  unfold Arena.getCell
  rw [hmods]
  apply find?_append_first
  · simp [hx, hy]
  · intro c2 hc2
    have h2 := hpre c2 hc2
    simp only [Bool.and_eq_true, beq_iff_eq, not_and]
    intro h3 h4
    exact h2 ⟨h3, h4⟩

/-- C9 (witness): the amended theorem applied to the stacked-cell arena. -/
theorem c9_witness :
    stackedCellArena.modules = [] ++ (⟨0, 0, .FloorStd⟩ : ArenaCell) ::
      [⟨0, 0, .HazardLavaPit⟩] ∧
    stackedCellArena.getCell 0 0 = some ⟨0, 0, .FloorStd⟩ :=
  ⟨rfl, c9_get_cell_first_write stackedCellArena 0 0 [] [⟨0, 0, .HazardLavaPit⟩]
    ⟨0, 0, .FloorStd⟩ rfl rfl rfl (fun c2 hc2 => absurd hc2 (List.not_mem_nil c2))⟩

/-- C10: for every integer coordinates (including negative or out-of-bounds
ones) and every module type, add_module always succeeds, appending exactly
one record and changing no other Grid field, with no bounds or occupancy
check; out-of-bounds records are only flagged (Critical BOUNDS) later by
validation. -/
theorem c10_add_module_unchecked (a : Arena) (x y : Int) (mid : ModuleId) :
    (a.addModule x y mid = { a with modules := a.modules ++ [⟨x, y, mid⟩] }) ∧
    (∀ (m : AnomalyMonitor) (c : ArenaCell), c ∈ a.modules →
      (c.x < 0 ∨ c.y < 0 ∨ (a.width : Int) ≤ c.x ∨ (a.height : Int) ≤ c.y) →
      ∃ an ∈ (m.checkStructuralIntegrity a).anomalies,
        an.severity = .Critical ∧ an.category = "BOUNDS") :=
  ⟨rfl, fun m c hc hoob => checkStructuralIntegrity_emits_oob m a c hc hoob⟩

/-- C10 (witness): the theorem applied to an arena holding a record at
(-1, 0) on a 2x2 grid. -/
theorem c10_witness :
    (outOfBoundsArena.addModule 5 7 .OrbEnergy =
      { outOfBoundsArena with
          modules := outOfBoundsArena.modules ++ [⟨5, 7, .OrbEnergy⟩] }) ∧
    ∃ an ∈ (AnomalyMonitor.new.checkStructuralIntegrity outOfBoundsArena).anomalies,
      an.severity = .Critical ∧ an.category = "BOUNDS" := by
  have h := c10_add_module_unchecked outOfBoundsArena 5 7 .OrbEnergy
  exact ⟨h.1, h.2 AnomalyMonitor.new ⟨-1, 0, .FloorStd⟩ (by decide) (Or.inl (by decide))⟩

/-- C1: two generate calls with the identical seed stream and the identical
catalog contents — but with the rules catalog's HashMap iterated in two
different orders (declaration order vs reversed, a permutation of the same
catalog) — both succeed yet return Grids with different active rule sets:
the output depends on the HashMap iteration order, which Rust's RandomState
does not derive from the seed or the catalog, so seeded generation is not
deterministic. -/
theorem c1_generation_depends_on_catalog_iteration_order :
    rulesCatalog.reverse.Perm rulesCatalog ∧
    orderRun1.1.isOk = true ∧
    orderRun2.1.isOk = true ∧
    runRuleIds orderRun1.1 = [RuleId.SpeedUp] ∧
    runRuleIds orderRun2.1 = [RuleId.NoAttack] :=
  ⟨List.reverse_perm _, rfl, rfl, rfl, rfl⟩

/-- C6: every successful generation returns a Grid containing exactly one
player-type module. -/
theorem c6_exactly_one_player (size ruleCount : Nat) (allRules : List Rule)
    (envVars : List EnvVariable) (elapsedMs : FloatQ) (m : AnomalyMonitor)
    (rng : Rng) (g : Arena)
    (h : (generateWithMonitoring size ruleCount allRules envVars elapsedMs m rng).1 =
      Except.ok g) :
    g.countModulesByType .Player = 1 := by
  unfold generateWithMonitoring at h
  dsimp only at h
  split at h
  · simp at h
  · injection h with h2
    rw [← h2]
    exact buildPipeline_player_count size ruleCount allRules envVars elapsedMs m rng

/-- C6 (witness): the theorem applied to the concrete successful run
cexOut. -/
theorem c6_witness :
    cexOut.1 = Except.ok cexArenaVal ∧
    cexArenaVal.countModulesByType .Player = 1 := by
  have hEq : cexOut.1 = Except.ok cexArenaVal := rfl
  exact ⟨hEq, c6_exactly_one_player 6 0 rulesCatalog envVarsCatalog ⟨100, 1⟩
    AnomalyMonitor.new ⟨cexStream, 0⟩ cexArenaVal hEq⟩

/-- C7 (counterexample): a successful generation of a 6x6 grid whose
returned Grid holds 11 walkable-type modules, strictly below the claimed
floor of 36 / 3 = 12 — the balancing stage's free-position search can
exhaust its 100-attempt budget, leaving the count between the validation
threshold (0.3 of the cells) and w*h/3. -/
theorem c7_counterexample :
    cexOut.1 = Except.ok cexArenaVal ∧
    cexArenaVal.walkableModuleCount = 11 ∧
    cexArenaVal.width * cexArenaVal.height / 3 = 12 ∧
    cexArenaVal.walkableModuleCount < cexArenaVal.width * cexArenaVal.height / 3 :=
  ⟨rfl, by decide, by decide, by decide⟩

/-- C7 (amended): for every successful generation, the returned Grid's
walkable-type module count is at least three tenths of w*h (the validation
gate's threshold); the stronger floor(w*h/3) bound of the claim holds only
when the balancing stage finds a free cell for every needed floor tile. -/
theorem c7_walkable_threshold (size ruleCount : Nat) (allRules : List Rule)
    (envVars : List EnvVariable) (elapsedMs : FloatQ) (m : AnomalyMonitor)
    (rng : Rng) (g : Arena)
    (h : (generateWithMonitoring size ruleCount allRules envVars elapsedMs m rng).1 =
      Except.ok g) :
    3 * (g.width * g.height) ≤ 10 * g.walkableModuleCount := by
  unfold generateWithMonitoring at h
  dsimp only at h
  split at h
  · simp at h
  · rename_i hnc
    injection h with h2
    by_contra hlt
    push_neg at hlt
    apply hnc
    have hshape : (buildPipeline size ruleCount allRules envVars elapsedMs m rng).2 =
        (((runStages size ruleCount allRules envVars m rng).2).validateArena
          (buildPipeline size ruleCount allRules envVars elapsedMs m rng).1).checkGenerationTime
          elapsedMs := rfl
    rw [hshape, h2]
    exact validate_hasCritical_of_low_walkable _ g elapsedMs hlt

/-- C7 (witness): the amended theorem applied to the concrete run cexOut,
where 3 * 36 = 108 <= 110 = 10 * 11. -/
theorem c7_witness :
    cexOut.1 = Except.ok cexArenaVal ∧
    3 * (cexArenaVal.width * cexArenaVal.height) ≤ 10 * cexArenaVal.walkableModuleCount := by
  have hEq : cexOut.1 = Except.ok cexArenaVal := rfl
  exact ⟨hEq, c7_walkable_threshold 6 0 rulesCatalog envVarsCatalog ⟨100, 1⟩
    AnomalyMonitor.new ⟨cexStream, 0⟩ cexArenaVal hEq⟩
